import Mathlib

/-!
# go-macaron/captcha: a shallow embedding of `captcha.go`

The captcha service keeps a short random digit challenge in a TTL key-value
cache under `CachePrefix + id`, serves it as an image and verifies a submitted
answer exactly once.  This file embeds the service (`Captcha.key`,
`Captcha.genRandChars`, `Captcha.CreateHtml`, `Captcha.CreateCaptcha`,
`Captcha.Verify`, `prepareOptions`, `NewCaptcha`, `Captchaer`) and proves
properties of it.

Conventions of the embedding:
* a Go `byte` is a `Fin 256`; byte subtraction wraps with an explicit `% 256`;
* a Go `string` and a Go `[]byte` are lists of bytes;
* the cache (`cache.Cache`, an interface implemented elsewhere) is a key-to-entry map
  state threaded explicitly, together with a trace of the calls made on it;
* the random source and the outcome of each `Put` are oracles of the state;
* the request context records whether macaron's Renderer middleware is
  registered: `ctx.Status` writes the status with it and panics without it;
* a Go panic is an explicit outcome.
-/

namespace MacaronCaptcha

/-! ## Bytes and strings -/

/-- A Go `byte` (`uint8`). -/
abbrev Byte := Fin 256

/-- A Go `string`, and also a Go `[]byte`: a sequence of bytes. -/
abbrev GoString := List Byte

/-- Subtraction of Go bytes, `a - b` on `uint8`: the result wraps modulo `2^8`. -/
def Byte.sub (a b : Byte) : Byte :=
  ⟨(a.val + 256 - b.val) % 256, Nat.mod_lt _ (by decide)⟩

/-- Addition of Go bytes, `a + b` on `uint8`: the result wraps modulo `2^8`. -/
def Byte.add (a b : Byte) : Byte :=
  ⟨(a.val + b.val) % 256, Nat.mod_lt _ (by decide)⟩

/-- The bytes of an ASCII string literal of the source. -/
def lit (s : String) : GoString :=
  s.toList.map (fun ch => ⟨ch.toNat % 256, Nat.mod_lt _ (by decide)⟩)

/-! ## The cache -/

/-- A Go `error` value that is not nil. -/
structure GoError where
  code : Nat
deriving DecidableEq, Repr

/-- A value held by the cache as an `interface{}`: either a `[]byte`, or a value
of some other dynamic type, which the type assertion `.([]byte)` rejects. -/
inductive Value where
  | bytes (b : List Byte)
  | other (tag : Nat)
deriving DecidableEq, Repr

/-- A cache entry: the value and the timeout in seconds it was stored with. -/
structure Entry where
  val : Value
  timeout : Int
deriving DecidableEq, Repr

/-- One call made on the cache. -/
inductive StoreOp where
  | get (key : GoString)
  | put (key : GoString) (val : Value) (timeout : Int)
  | delete (key : GoString)
deriving DecidableEq, Repr

/-- Whether a call is a plain read. -/
def StoreOp.isGet : StoreOp → Bool
  | .get _ => true
  | _ => false

/-- Whether a call is a `Put`. -/
def StoreOp.isPut : StoreOp → Bool
  | .put _ _ _ => true
  | _ => false

/-- The state of the cache `cache.Cache` the service talks to.
`data` is the content (which entry, if any, is live under each key),
`putErrs` are the results of the coming `Put` calls in order (`none` is a nil
error; when the list is used up, `Put` succeeds), and `trace` records every
call made so far, oldest first. -/
structure Store where
  data : GoString → Option Entry
  putErrs : List (Option GoError)
  trace : List StoreOp

/-- `cache.Get(key)`: the stored value, or `none` for the nil interface
returned when the key has no live entry. -/
def Store.Get (s : Store) (key : GoString) : Option Value × Store :=
  ((s.data key).map Entry.val, { s with trace := s.trace ++ [StoreOp.get key] })

/-- `cache.Put(key, val, timeout)`: on success the entry under `key` is
replaced; on failure the content is left as it was and the error is returned. -/
def Store.Put (s : Store) (key : GoString) (val : Value) (timeout : Int) :
    Option GoError × Store :=
  let tr := s.trace ++ [StoreOp.put key val timeout]
  match s.putErrs with
  | some e :: rest => (some e, { s with putErrs := rest, trace := tr })
  | none :: rest =>
    (none, { data := fun k => if k = key then some ⟨val, timeout⟩ else s.data k,
             putErrs := rest, trace := tr })
  | [] =>
    (none, { data := fun k => if k = key then some ⟨val, timeout⟩ else s.data k,
             putErrs := [], trace := tr })

/-- `cache.Delete(key)`: afterwards no entry is live under `key`.  Every caller
in this package discards the error result, so it is not part of the model. -/
def Store.Delete (s : Store) (key : GoString) : Store :=
  { s with data := fun k => if k = key then none else s.data k,
           trace := s.trace ++ [StoreOp.delete key] }

/-- The type assertion `v.([]byte)` on the result of `Get`. -/
def assertBytes : Option Value → Option (List Byte)
  | some (Value.bytes b) => some b
  | _ => none

/-! ## Outcomes -/

/-- The outcome of running a function body: a normal return, or a Go panic. -/
inductive Outcome (α : Type) where
  | ret (a : α)
  | panic (msg : String)
deriving DecidableEq, Repr

/-! ## The service -/

/-- The `Captcha` struct, without its `store` field: the cache is threaded
through the operations as an explicit state. -/
structure Captcha where
  URLPrefix : GoString
  FieldIdName : GoString
  FieldCaptchaName : GoString
  StdWidth : Int
  StdHeight : Int
  ChallengeNums : Int
  Expiration : Int
  CachePrefix : GoString
deriving DecidableEq, Repr

/-- `Captcha.key`: the cache key of an id. -/
def key (c : Captcha) (id : GoString) : GoString :=
  c.CachePrefix ++ id

/-- The comparison loop of `Verify`, from index `i` on:
`for i, c := range chars { if c != challenge[i]-48 { return } }; return true`.
Indexing `challenge[i]` out of range panics. -/
def verifyLoop (challenge : GoString) : List Byte → Nat → Outcome Bool
  | [], _ => Outcome.ret true
  | ch :: rest, i =>
    match challenge.get? i with
    | none => Outcome.panic "index out of range"
    | some a =>
      if ch ≠ Byte.sub a 48 then Outcome.ret false
      else verifyLoop challenge rest (i + 1)

/-- `Captcha.Verify(id, challenge)`: the result and the cache afterwards.  The
deferred `Delete` runs when the function leaves the comparison loop, whether by
a return or by a panic. -/
def Verify (c : Captcha) (id challenge : GoString) (s : Store) : Outcome Bool × Store :=
  if challenge.length = 0 ∨ id.length = 0 then (Outcome.ret false, s)
  else
    let k := key c id
    let (got, s1) := s.Get k
    match assertBytes got with
    | some v =>
      if v.length = challenge.length then
        (verifyLoop challenge v 0, s1.Delete k)
      else (Outcome.ret false, s1)
    | none => (Outcome.ret false, s1)

/-- The digit value a submitted character stands for: `a - 48` on bytes. -/
def digitOf (a : Byte) : Byte := Byte.sub a 48

/-- The answer that spells a challenge: each stored byte plus the code of `'0'`. -/
def decimalString (d : List Byte) : GoString := d.map (fun b => Byte.add b 48)

/-! ## Random bytes -/

/-- The random source: `draw i` is the `i`-th number it yields, `pos` counts
the numbers consumed so far. -/
structure Rand where
  draw : Nat → Nat
  pos : Nat

/-- `defaultChars`: the digit values a challenge is drawn from. -/
def defaultChars : List Byte := [0, 1, 2, 3, 4, 5, 6, 7, 8, 9]

/-- The alphabet `com.RandomCreateBytes` falls back on when none is given. -/
def alphanum : GoString :=
  lit "0123456789ABCDEFGHIJKLMNOPQRSTUVWXYZabcdefghijklmnopqrstuvwxyz"

/-- The loop of `com.RandomCreateBytes`: byte `i` is the element of the
alphabet at the `i`-th coming random number reduced modulo the alphabet's length. -/
def randBytes (n : Nat) (alpha : List Byte) (r : Rand) : List Byte :=
  (List.range n).map (fun i => alpha.getD (r.draw (r.pos + i) % alpha.length) 0)

/-- The library function `com.RandomCreateBytes(n, alphabets...)`: `n` bytes, the
`i`-th one being the alphabet's element at the `i`-th random number reduced
modulo the alphabet's length.  A negative `n` panics in `make([]byte, n)`. -/
def RandomCreateBytes (n : Int) (alphabets : List Byte) (r : Rand) :
    Outcome (List Byte) × Rand :=
  if n < 0 then (Outcome.panic "makeslice: len out of range", r)
  else
    let alpha := if alphabets.length = 0 then alphanum else alphabets
    (Outcome.ret (randBytes n.toNat alpha r), { r with pos := r.pos + n.toNat })

/-- `Captcha.genRandChars`: `ChallengeNums` random digit values. -/
def genRandChars (c : Captcha) (r : Rand) : Outcome (List Byte) × Rand :=
  RandomCreateBytes c.ChallengeNums defaultChars r

/-- `Captcha.CreateCaptcha`: the returned pair `(id, err)`, the cache and the
random source afterwards. -/
def CreateCaptcha (c : Captcha) (s : Store) (r : Rand) :
    Outcome (GoString × Option GoError) × Store × Rand :=
  match RandomCreateBytes 15 [] r with
  | (Outcome.panic m, r1) => (Outcome.panic m, s, r1)
  | (Outcome.ret id, r1) =>
    match genRandChars c r1 with
    | (Outcome.panic m, r2) => (Outcome.panic m, s, r2)
    | (Outcome.ret chars, r2) =>
      match s.Put (key c id) (Value.bytes chars) c.Expiration with
      | (some err, s1) => (Outcome.ret ([], some err), s1, r2)
      | (none, s1) => (Outcome.ret (id, none), s1, r2)

/-! ## Options -/

/-- The `Options` struct. -/
structure Options where
  URLPrefix : GoString
  FieldIdName : GoString
  FieldCaptchaName : GoString
  ChallengeNums : Int
  Expiration : Int
  CachePrefix : GoString
deriving DecidableEq, Repr

/-- The zero value of `Options`. -/
def Options.zero : Options := ⟨[], [], [], 0, 0, []⟩

/-- The default of `URLPrefix`: `"/captcha/"` when empty, else a slash is
appended unless the last byte is one. -/
def setURLPrefix (opt : Options) : Options :=
  if opt.URLPrefix.length = 0 then { opt with URLPrefix := lit "/captcha/" }
  else if opt.URLPrefix.get? (opt.URLPrefix.length - 1) ≠ some 47 then
    { opt with URLPrefix := opt.URLPrefix ++ lit "/" }
  else opt

/-- The default of `FieldIdName`. -/
def setFieldIdName (opt : Options) : Options :=
  if opt.FieldIdName.length = 0 then { opt with FieldIdName := lit "captcha_id" } else opt

/-- The default of `FieldCaptchaName`. -/
def setFieldCaptchaName (opt : Options) : Options :=
  if opt.FieldCaptchaName.length = 0 then { opt with FieldCaptchaName := lit "captcha" }
  else opt

/-- The default of `ChallengeNums`. -/
def setChallengeNums (opt : Options) : Options :=
  if opt.ChallengeNums = 0 then { opt with ChallengeNums := 6 } else opt

/-- The default of `Expiration`. -/
def setExpiration (opt : Options) : Options :=
  if opt.Expiration = 0 then { opt with Expiration := 600 } else opt

/-- The default of `CachePrefix`. -/
def setCachePrefix (opt : Options) : Options :=
  if opt.CachePrefix.length = 0 then { opt with CachePrefix := lit "captcha_" } else opt

/-- The function `prepareOptions`: the first element of `options`, or the zero
value, with the defaults filled in, field after field in the order of the
source. -/
def prepareOptions (options : List Options) : Options :=
  let opt : Options := match options with
    | [] => Options.zero
    | o :: _ => o
  setCachePrefix (setExpiration (setChallengeNums (setFieldCaptchaName
    (setFieldIdName (setURLPrefix opt)))))

/-- What `captcha.go` takes from the image part of the package: the constants
`stdWidth` and `stdHeight`, and `NewImage(chars, w, h).WriteTo(resp)`, which
yields the bytes written to the response and the error of the write. -/
structure Imaging where
  stdWidth : Int
  stdHeight : Int
  writeImage : List Byte → Int → Int → List Byte × Option GoError

/-- The function `NewCaptcha`. -/
def NewCaptcha (img : Imaging) (opt : Options) : Captcha :=
  { URLPrefix := opt.URLPrefix
    FieldIdName := opt.FieldIdName
    FieldCaptchaName := opt.FieldCaptchaName
    StdWidth := img.stdWidth
    StdHeight := img.stdHeight
    ChallengeNums := opt.ChallengeNums
    Expiration := opt.Expiration
    CachePrefix := opt.CachePrefix }

/-! ## String functions of the standard library -/

/-- `strings.HasPrefix(s, pre)`. -/
def HasPrefix (s pre : GoString) : Bool :=
  decide (pre.length ≤ s.length ∧ s.take pre.length = pre)

/-- `strings.Index(s, substr)`, searched from position `i` of the original
string on: the index of the first occurrence, or `-1`. -/
def indexFrom (substr : GoString) : GoString → Nat → Int
  | [], i => if substr = [] then (i : Int) else -1
  | ch :: rest, i =>
    if substr.isPrefixOf (ch :: rest) then (i : Int) else indexFrom substr rest (i + 1)

/-- `strings.Index(s, substr)`. -/
def Index (s substr : GoString) : Int := indexFrom substr s 0

/-- `strings.LastIndex(s, substr)`, trying the positions `n`, `n - 1`, ..., `0`. -/
def lastIndexFrom (s substr : GoString) : Nat → Int
  | 0 => if substr.isPrefixOf s then 0 else -1
  | n + 1 =>
    if substr.isPrefixOf (s.drop (n + 1)) then ((n + 1 : Nat) : Int)
    else lastIndexFrom s substr n

/-- `strings.LastIndex(s, substr)`: the index of the last occurrence, or `-1`. -/
def LastIndex (s substr : GoString) : Int := lastIndexFrom s substr s.length

/-- `path.Base(p)`: the last element of the path, after the trailing slashes
are stripped; `"."` for the empty path and `"/"` for a path of slashes only. -/
def pathBase (p : GoString) : GoString :=
  if p = [] then lit "."
  else
    let p1 := (p.reverse.dropWhile (fun b => b = 47)).reverse
    let i := LastIndex p1 (lit "/")
    let p2 := if i ≥ 0 then p1.drop (i + 1).toNat else p1
    if p2 = [] then lit "/" else p2

/-! ## The handler -/

/-- What the handler reads from the request: `ctx.Req.RequestURI`, and the
value `ctx.Query("reload")` yields for it. -/
structure Request where
  RequestURI : GoString
  reload : GoString
deriving DecidableEq, Repr

/-- One action on the response. -/
inductive RespOp where
  | status (code : Nat)
  | write (body : List Byte)
deriving DecidableEq, Repr

/-- The part of `macaron.Context` the handler acts on: the request, the actions
made on the response so far, the challenges handed to `NewImage` so far, the
entry `ctx.Data["Captcha"]`, the services mapped with `ctx.Map`, and whether
the handler chain has registered macaron's Renderer middleware, so that
`ctx.Render` is a real renderer and not the dummy one. -/
structure Context where
  Req : Request
  resp : List RespOp
  rendered : List (List Byte)
  dataCaptcha : Option Captcha
  mapped : List Captcha
  renderRegistered : Bool
deriving DecidableEq, Repr

/-- `ctx.Status(code)`, macaron's `Render.Status`: with the Renderer middleware
registered it writes the status to the response; without it the dummy renderer
panics, before anything is written. -/
def Context.Status (ctx : Context) (code : Nat) : Outcome Unit × Context :=
  if ctx.renderRegistered then
    (Outcome.ret (), { ctx with resp := ctx.resp ++ [RespOp.status code] })
  else (Outcome.panic "middleware render hasn't been registered", ctx)

/-- `ctx.Write(body)`: the bytes go to the response writer, with or without the
Renderer middleware. -/
def Context.Write (ctx : Context) (body : List Byte) : Context :=
  { ctx with resp := ctx.resp ++ [RespOp.write body] }

/-- The id the handler takes from the request URI: `path.Base` of it, cut at
the first `'.'`. -/
def extractId (uri : GoString) : GoString :=
  let id := pathBase uri
  let i := Index id (lit ".")
  if i > -1 then id.take i.toNat else id

/-- The tail of the handler: render `chars` into the response. -/
def writeCaptcha (img : Imaging) (cpt : Captcha) (chars : List Byte) (ctx : Context) :
    Outcome Unit × Context :=
  let out := img.writeImage chars cpt.StdWidth cpt.StdHeight
  let ctx1 : Context :=
    { ctx with rendered := ctx.rendered ++ [chars], resp := ctx.resp ++ [RespOp.write out.1] }
  match out.2 with
  | some _ => (Outcome.panic "fail to write captcha", ctx1)
  | none => (Outcome.ret (), ctx1)

/-- The handler returned by `Captchaer(options...)`, run on one request. -/
def Captchaer (img : Imaging) (options : List Options) (ctx : Context) (s : Store)
    (r : Rand) : Outcome Unit × Context × Store × Rand :=
  let cpt := NewCaptcha img (prepareOptions options)
  if HasPrefix ctx.Req.RequestURI cpt.URLPrefix then
    let id := extractId ctx.Req.RequestURI
    let k := key cpt id
    if ctx.Req.reload.length > 0 then
      match genRandChars cpt r with
      | (Outcome.panic m, r1) => (Outcome.panic m, ctx, s, r1)
      | (Outcome.ret chars, r1) =>
        match s.Put k (Value.bytes chars) cpt.Expiration with
        | (some _, s1) =>
          match ctx.Status 500 with
          | (Outcome.panic m, ctx1) => (Outcome.panic m, ctx1, s1, r1)
          | (Outcome.ret _, ctx1) =>
            (Outcome.panic "fail to reload captcha",
              ctx1.Write (lit "captcha reload error"), s1, r1)
        | (none, s1) =>
          let out := writeCaptcha img cpt chars ctx
          (out.1, out.2, s1, r1)
    else
      match s.Get k with
      | (got, s1) =>
        match assertBytes got with
        | some v =>
          let out := writeCaptcha img cpt v ctx
          (out.1, out.2, s1, r)
        | none =>
          match ctx.Status 404 with
          | (Outcome.panic m, ctx1) => (Outcome.panic m, ctx1, s1, r)
          | (Outcome.ret _, ctx1) =>
            (Outcome.ret (), ctx1.Write (lit "captcha not found"), s1, r)
  else
    (Outcome.ret (), { ctx with dataCaptcha := some cpt, mapped := ctx.mapped ++ [cpt] }, s, r)

/-- The key a cache call is made on. -/
def StoreOp.key : StoreOp → GoString
  | .get k => k
  | .put k _ _ => k
  | .delete k => k

/-- The request URIs the specification documents: `URLPrefix + id`, optionally
followed by `"." + ext`, optionally followed by `"?reload=" + v`. -/
def requestForm (pre id : GoString) (ext v : Option GoString) : GoString :=
  pre ++ id
    ++ (match ext with
        | none => []
        | some e => lit "." ++ e)
    ++ (match v with
        | none => []
        | some x => lit "?reload=" ++ x)

/-- A request context on which nothing has been done yet, in a handler chain
with the Renderer middleware registered. -/
def freshContext (uri reload : GoString) : Context :=
  { Req := ⟨uri, reload⟩, resp := [], rendered := [], dataCaptcha := none, mapped := [],
    renderRegistered := true }

/-- A request context on which nothing has been done yet, in a handler chain
without the Renderer middleware, such as the one of `Test_Captcha`
(`cache.Cacher()` and `Captchaer()` only). -/
def bareContext (uri reload : GoString) : Context :=
  { Req := ⟨uri, reload⟩, resp := [], rendered := [], dataCaptcha := none, mapped := [],
    renderRegistered := false }

/-- The id `CreateCaptcha` draws from the random source `r`. -/
def newId (r : Rand) : GoString := randBytes 15 alphanum r

/-- The digits `CreateCaptcha` draws from the random source `r`, after the id. -/
def newChars (c : Captcha) (r : Rand) : List Byte :=
  randBytes c.ChallengeNums.toNat defaultChars { r with pos := r.pos + 15 }

/-! ## The markup -/

/-- The double quote of the markup. -/
def dquote : GoString := [34]

/-- The single quote of the markup. -/
def squote : GoString := [39]

/-- The URL of the image of an id, as `CreateHtml` writes it. -/
def imageURL (pre value : GoString) : GoString :=
  pre ++ value ++ lit ".png"

/-- The URL the `onclick` script of the markup builds: the reload URL of an
id, followed by the decimal timestamp `ts` the script appends. -/
def reloadURL (pre value ts : GoString) : GoString :=
  pre ++ value ++ lit ".png?reload=" ++ ts

/-- The hidden input of the markup, `<input type="hidden" name=... value=...>`. -/
def hiddenField (name value : GoString) : GoString :=
  lit "<input type=" ++ dquote ++ lit "hidden" ++ dquote ++ lit " name=" ++ dquote ++ name
    ++ dquote ++ lit " value=" ++ dquote ++ value ++ dquote ++ lit ">"

/-- The attribute `src=...` of the image of the markup. -/
def srcAttr (url : GoString) : GoString :=
  lit "src=" ++ dquote ++ url ++ dquote

/-- The image tag of the markup. -/
def imgTag (pre value : GoString) : GoString :=
  lit "<img onclick=" ++ dquote ++ lit "this.src=(" ++ squote ++ reloadURL pre value []
    ++ squote ++ lit "+(new Date()).getTime())" ++ dquote ++ lit " class=" ++ dquote
    ++ lit "captcha-img" ++ dquote ++ lit " " ++ srcAttr (imageURL pre value) ++ lit ">"

/-- The format string of `CreateHtml`, filled with its six arguments
`FieldIdName, value, URLPrefix, value, URLPrefix, value`; the lines of the
raw string are joined by a newline and the tabs of the source. -/
def markup (fieldIdName pre value : GoString) : GoString :=
  hiddenField fieldIdName value ++ [10, 9]
    ++ (lit "<a class=" ++ dquote ++ lit "captcha" ++ dquote ++ lit " href=" ++ dquote
      ++ lit "javascript:" ++ dquote ++ lit ">") ++ [10, 9, 9]
    ++ imgTag pre value ++ [10, 9]
    ++ lit "</a>"

/-- `Captcha.CreateHtml`: the markup, or a panic when `CreateCaptcha` returns an
error (a panic inside `CreateCaptcha` goes through). -/
def CreateHtml (c : Captcha) (s : Store) (r : Rand) : Outcome GoString × Store × Rand :=
  match CreateCaptcha c s r with
  | (Outcome.panic m, s1, r1) => (Outcome.panic m, s1, r1)
  | (Outcome.ret (_, some _), s1, r1) => (Outcome.panic "fail to create captcha", s1, r1)
  | (Outcome.ret (value, none), s1, r1) =>
    (Outcome.ret (markup c.FieldIdName c.URLPrefix value), s1, r1)

/-- `n` plain fetches of the same URI in a row, each request with a context of
its own: the challenges handed to the renderer by each, and the cache and the
random source afterwards. -/
def plainFetches (img : Imaging) (options : List Options) (uri : GoString) :
    Nat → Store → Rand → List (List (List Byte)) × Store × Rand
  | 0, s, r => ([], s, r)
  | n + 1, s, r =>
    let out := Captchaer img options (freshContext uri []) s r
    let rest := plainFetches img options uri n out.2.2.1 out.2.2.2
    (out.2.1.rendered :: rest.1, rest.2)

/-! ## Sample data -/

/-- An image part with the package's standard size, whose write echoes the digits. -/
def sampleImaging : Imaging := ⟨240, 80, fun d _ _ => (d, none)⟩

/-- The service built from the default options. -/
def sampleCaptcha : Captcha := NewCaptcha sampleImaging (prepareOptions [])

/-- A cache holding the challenge `3 1` under the id `ab`, and a value of
another type under the id `zz`. -/
def sampleStore : Store :=
  { data := fun k =>
      if k = lit "captcha_ab" then some ⟨Value.bytes [3, 1], 600⟩
      else if k = lit "captcha_zz" then some ⟨Value.other 0, 600⟩
      else none
    putErrs := []
    trace := [] }

/-- The same cache, whose next `Put` fails. -/
def failingStore : Store := { sampleStore with putErrs := [some ⟨1⟩] }

/-- A random source. -/
def sampleRand : Rand := ⟨fun i => 7 * i + 3, 0⟩

/-- A cache holding under the id `abc` the very digits `sampleRand` yields next. -/
def repeatStore : Store :=
  { data := fun k =>
      if k = lit "captcha_abc" then some ⟨Value.bytes [3, 0, 7, 4, 1, 8], 600⟩ else none
    putErrs := []
    trace := [] }

/-! ## Lemmas on the comparison loop and on `Verify` -/

theorem digitOf_add (b : Byte) : digitOf (Byte.add b 48) = b := by
  apply Fin.ext
  have hb := b.isLt
  simp only [digitOf, Byte.sub, Byte.add]
  show (((b.val + 48) % 256) + 256 - 48) % 256 = b.val
  omega

theorem add_digitOf (a : Byte) : Byte.add (digitOf a) 48 = a := by
  apply Fin.ext
  have ha := a.isLt
  simp only [digitOf, Byte.sub, Byte.add]
  show (((a.val + 256 - 48) % 256) + 48) % 256 = a.val
  omega

theorem digitOf_decimalString (d : List Byte) : (decimalString d).map digitOf = d := by
  induction d with
  | nil => rfl
  | cons b rest ih =>
    simp only [decimalString, List.map_cons, List.map_map] at ih ⊢
    rw [digitOf_add]
    exact congrArg _ ih

theorem decimalString_digitOf (w : GoString) : decimalString (w.map digitOf) = w := by
  induction w with
  | nil => rfl
  | cons a rest ih =>
    simp only [decimalString, List.map_cons] at ih ⊢
    rw [add_digitOf, ih]

theorem decimalString_length (d : List Byte) : (decimalString d).length = d.length := by
  simp [decimalString]

/-- When the rest of the stored bytes is as long as the rest of the answer, the
loop returns normally: true exactly when the stored bytes are the digit values
of the answer's characters. -/
theorem verifyLoop_eq (challenge : GoString) :
    ∀ (chars : List Byte) (i : Nat), i + chars.length = challenge.length →
      verifyLoop challenge chars i
        = Outcome.ret (decide (chars = (challenge.drop i).map digitOf)) := by
  intro chars
  induction chars with
  | nil =>
    intro i h
    have hi : challenge.length ≤ i := by simp at h; omega
    simp [verifyLoop, List.drop_eq_nil_of_le hi]
  | cons ch rest ih =>
    intro i h
    have hi : i < challenge.length := by simp at h; omega
    have hdrop : challenge.drop i = challenge[i] :: challenge.drop (i + 1) :=
      List.drop_eq_getElem_cons hi
    have hget : challenge.get? i = some challenge[i] := by
      simp [List.getElem?_eq_getElem hi]
    have hrest : (i + 1) + rest.length = challenge.length := by
      simp at h; omega
    rw [verifyLoop, hget]
    simp only [hdrop, List.map_cons]
    by_cases hc : ch = Byte.sub challenge[i] 48
    · simp only [hc, ne_eq, not_true_eq_false, if_false]
      rw [ih (i + 1) hrest]
      simp [digitOf]
    · simp [hc, digitOf]

/-- The shape of `Verify` when the lookup hits a byte sequence as long as the
answer: the comparison is made and the entry deleted. -/
theorem Verify_hit (c : Captcha) (s : Store) (id answer v : GoString) (t : Int)
    (hid : id ≠ []) (hans : answer ≠ [])
    (hget : s.data (key c id) = some ⟨Value.bytes v, t⟩)
    (hlen : v.length = answer.length) :
    Verify c id answer s
      = (Outcome.ret (decide (v = answer.map digitOf)),
          (s.Get (key c id)).2.Delete (key c id)) := by
  have h1 : ¬ (answer.length = 0 ∨ id.length = 0) := by
    simp [List.length_eq_zero, hid, hans]
  have h2 := verifyLoop_eq answer v 0 (by simpa using hlen)
  simp only [List.drop_zero] at h2
  rw [Verify, if_neg h1]
  simp only [Store.Get, hget, Option.map_some', assertBytes, hlen, if_true, h2]

/-- The shape of `Verify` when the lookup finds no byte sequence, or one of
another length: false, after the one read. -/
theorem Verify_miss (c : Captcha) (s : Store) (id answer : GoString)
    (hid : id ≠ []) (hans : answer ≠ [])
    (hmiss : ∀ v, assertBytes ((s.data (key c id)).map Entry.val) = some v →
      v.length ≠ answer.length) :
    Verify c id answer s = (Outcome.ret false, (s.Get (key c id)).2) := by
  have h1 : ¬ (answer.length = 0 ∨ id.length = 0) := by
    simp [List.length_eq_zero, hid, hans]
  rw [Verify, if_neg h1]
  simp only [Store.Get]
  cases hv : assertBytes (Option.map Entry.val (s.data (key c id))) with
  | none => rfl
  | some v => simp [hmiss v hv]

/-- The shape of `Verify` on an empty id or an empty answer. -/
theorem Verify_empty (c : Captcha) (s : Store) (id answer : GoString)
    (h : id = [] ∨ answer = []) :
    Verify c id answer s = (Outcome.ret false, s) := by
  have h1 : answer.length = 0 ∨ id.length = 0 := by
    rcases h with h | h <;> simp [h]
  rw [Verify, if_pos h1]

/-! ## Lemmas on the cache and on `CreateCaptcha` -/

theorem Store.Put_trace (s : Store) (k : GoString) (v : Value) (t : Int) :
    (s.Put k v t).2.trace = s.trace ++ [StoreOp.put k v t] := by
  unfold Store.Put
  rcases h : s.putErrs with _ | ⟨_ | e, rest⟩ <;> simp

theorem Store.Put_err (s : Store) (k : GoString) (v : Value) (t : Int) :
    (s.Put k v t).1 = s.putErrs.head?.join := by
  unfold Store.Put
  rcases h : s.putErrs with _ | ⟨_ | e, rest⟩ <;> simp

theorem Store.Put_data_ok (s : Store) (k : GoString) (v : Value) (t : Int)
    (h : (s.Put k v t).1 = none) :
    (s.Put k v t).2.data = fun k1 => if k1 = k then some ⟨v, t⟩ else s.data k1 := by
  unfold Store.Put at h ⊢
  rcases hp : s.putErrs with _ | ⟨_ | e, rest⟩
  · simp
  · simp
  · rw [hp] at h; simp at h

theorem Store.Put_data_fail (s : Store) (k : GoString) (v : Value) (t : Int) (e : GoError)
    (h : (s.Put k v t).1 = some e) : (s.Put k v t).2.data = s.data := by
  unfold Store.Put at h ⊢
  rcases hp : s.putErrs with _ | ⟨_ | e1, rest⟩
  · rw [hp] at h; simp at h
  · rw [hp] at h; simp at h
  · simp

theorem randBytes_length (n : Nat) (alpha : List Byte) (r : Rand) :
    (randBytes n alpha r).length = n := by
  simp [randBytes]

theorem randBytes_mem (n : Nat) (alpha : List Byte) (r : Rand) (h : alpha ≠ [])
    (b : Byte) (hb : b ∈ randBytes n alpha r) : b ∈ alpha := by
  simp only [randBytes, List.mem_map, List.mem_range] at hb
  obtain ⟨i, _, rfl⟩ := hb
  have hpos : 0 < alpha.length := List.length_pos.mpr h
  have hlt : r.draw (r.pos + i) % alpha.length < alpha.length := Nat.mod_lt _ hpos
  rw [List.getD_eq_getElem _ _ hlt]
  exact List.getElem_mem _

theorem defaultChars_le (b : Byte) (h : b ∈ defaultChars) : b.val ≤ 9 := by
  simp only [defaultChars, List.mem_cons, List.mem_singleton, List.not_mem_nil, or_false] at h
  rcases h with h | h | h | h | h | h | h | h | h | h <;> subst h <;> decide

/-- How `CreateCaptcha` runs when `ChallengeNums` is not negative: one `Put` of
fresh digits under the key of a fresh id. -/
theorem CreateCaptcha_eq (c : Captcha) (s : Store) (r : Rand) (hN : 0 ≤ c.ChallengeNums) :
    CreateCaptcha c s r =
      (Outcome.ret
        (if (s.Put (key c (newId r)) (Value.bytes (newChars c r)) c.Expiration).1 = none
          then newId r else [],
         (s.Put (key c (newId r)) (Value.bytes (newChars c r)) c.Expiration).1),
       (s.Put (key c (newId r)) (Value.bytes (newChars c r)) c.Expiration).2,
       { pos := r.pos + 15 + c.ChallengeNums.toNat, draw := r.draw }) := by
  have h1 : ¬ c.ChallengeNums < 0 := not_lt.mpr hN
  simp only [CreateCaptcha, RandomCreateBytes, genRandChars, h1, if_false, newId, newChars]
  simp only [show ¬ ((15 : Int) < 0) by decide, if_false, List.length_nil, if_true,
    show (15 : Int).toNat = 15 from rfl, show ¬ (defaultChars.length = 0) by decide]
  cases hp : s.Put (key c (randBytes 15 alphanum r))
      (Value.bytes (randBytes c.ChallengeNums.toNat defaultChars { r with pos := r.pos + 15 }))
      c.Expiration with
  | mk e s1 =>
    cases e <;> simp

/-- How `CreateCaptcha` runs when `ChallengeNums` is negative: it panics before
any call on the cache. -/
theorem CreateCaptcha_neg (c : Captcha) (s : Store) (r : Rand) (hN : c.ChallengeNums < 0) :
    ∃ m r1, CreateCaptcha c s r = (Outcome.panic m, s, r1) := by
  simp only [CreateCaptcha, RandomCreateBytes, genRandChars, hN, if_true]
  simp only [show ¬ ((15 : Int) < 0) by decide, if_false]
  exact ⟨_, _, rfl⟩

/-- What a normal return of `CreateCaptcha` tells: `ChallengeNums` is not
negative, the error is the result of the one `Put`, the id is the fresh id or
empty, and the cache is the one that `Put` leaves. -/
theorem CreateCaptcha_ret (c : Captcha) (s : Store) (r : Rand) (id : GoString)
    (err : Option GoError) (h : (CreateCaptcha c s r).1 = Outcome.ret (id, err)) :
    0 ≤ c.ChallengeNums ∧
    err = (s.Put (key c (newId r)) (Value.bytes (newChars c r)) c.Expiration).1 ∧
    id = (if err = none then newId r else []) ∧
    (CreateCaptcha c s r).2.1
      = (s.Put (key c (newId r)) (Value.bytes (newChars c r)) c.Expiration).2 := by
  by_cases hN : 0 ≤ c.ChallengeNums
  · rw [CreateCaptcha_eq c s r hN] at h ⊢
    simp only [Outcome.ret.injEq, Prod.mk.injEq] at h
    refine ⟨hN, h.2.symm, ?_, rfl⟩
    rw [← h.1, ← h.2]
  · obtain ⟨m, r1, hp⟩ := CreateCaptcha_neg c s r (not_le.mp hN)
    rw [hp] at h
    simp at h

theorem newId_length (r : Rand) : (newId r).length = 15 := randBytes_length _ _ _

theorem newId_ne_nil (r : Rand) : newId r ≠ [] := by
  intro h
  have := newId_length r
  rw [h] at this
  simp at this

theorem newChars_length (c : Captcha) (r : Rand) :
    (newChars c r).length = c.ChallengeNums.toNat := randBytes_length _ _ _

theorem newChars_le (c : Captcha) (r : Rand) (b : Byte) (h : b ∈ newChars c r) :
    b.val ≤ 9 :=
  defaultChars_le b (randBytes_mem _ _ _ (by decide) b h)

/-- The answer that spells a stored challenge is accepted. -/
theorem Verify_decimalString (c : Captcha) (s : Store) (id d : GoString) (t : Int)
    (hid : id ≠ []) (hd : d ≠ []) (hget : s.data (key c id) = some ⟨Value.bytes d, t⟩) :
    Verify c id (decimalString d) s
      = (Outcome.ret true, (s.Get (key c id)).2.Delete (key c id)) := by
  have hne : decimalString d ≠ [] := by
    intro h
    have := decimalString_length d
    rw [h] at this
    exact hd (List.length_eq_zero.mp this.symm)
  rw [Verify_hit c s id (decimalString d) d t hid hne hget (decimalString_length d).symm,
    digitOf_decimalString]
  simp

/-- Once no entry is live under the key of an id, `Verify` rejects every answer. -/
theorem Verify_absent (c : Captcha) (s : Store) (id a : GoString)
    (h : s.data (key c id) = none) : (Verify c id a s).1 = Outcome.ret false := by
  by_cases hid : id = []
  · rw [Verify_empty c s id a (Or.inl hid)]
  by_cases ha : a = []
  · rw [Verify_empty c s id a (Or.inr ha)]
  rw [Verify_miss c s id a hid ha]
  intro v hv
  rw [h] at hv
  simp [assertBytes] at hv

/-! ## Verification -/

/-- C1: when the cache holds a byte sequence `v` under `CachePrefix + id` as long
as the answer, and id and answer are not empty, `Verify` returns true exactly
when every `v[i]` is the byte `answer[i] - 48`, and false otherwise; on an empty
id, an empty answer, no byte-sequence entry or another length it returns false. -/
theorem Verify_true_iff (c : Captcha) (s : Store) (id answer : GoString) :
    (∀ (v : List Byte) (t : Int), id ≠ [] → answer ≠ [] →
        s.data (key c id) = some ⟨Value.bytes v, t⟩ → v.length = answer.length →
        ((Verify c id answer s).1 = Outcome.ret true ↔
          ∀ (i : Nat) (h1 : i < v.length) (h2 : i < answer.length),
            v[i] = Byte.sub answer[i] 48) ∧
        ((Verify c id answer s).1 = Outcome.ret true ∨
          (Verify c id answer s).1 = Outcome.ret false)) ∧
    ((id = [] ∨ answer = [] ∨
        (∀ (v : List Byte) (t : Int), s.data (key c id) ≠ some ⟨Value.bytes v, t⟩) ∨
        (∃ (v : List Byte) (t : Int),
          s.data (key c id) = some ⟨Value.bytes v, t⟩ ∧ v.length ≠ answer.length)) →
      (Verify c id answer s).1 = Outcome.ret false) := by
  constructor
  · intro v t hid hans hget hlen
    rw [Verify_hit c s id answer v t hid hans hget hlen]
    have hiff : v = answer.map digitOf ↔
        ∀ (i : Nat) (h1 : i < v.length) (h2 : i < answer.length),
          v[i] = Byte.sub answer[i] 48 := by
      constructor
      · intro h i h1 h2
        subst h
        simp [digitOf]
      · intro h
        apply List.ext_getElem (by simpa using hlen)
        intro i h1 h2
        have h3 : i < answer.length := by simpa using h2
        rw [h i h1 h3]
        simp [digitOf]
    constructor
    · simp only [Outcome.ret.injEq, decide_eq_true_eq]
      exact hiff
    · by_cases hv : v = answer.map digitOf <;> simp [hv]
  · intro h
    by_cases hid : id = []
    · rw [Verify_empty c s id answer (Or.inl hid)]
    by_cases hans : answer = []
    · rw [Verify_empty c s id answer (Or.inr hans)]
    rw [Verify_miss c s id answer hid hans]
    intro v hv
    have hentry : ∃ t, s.data (key c id) = some ⟨Value.bytes v, t⟩ := by
      cases hd : s.data (key c id) with
      | none => rw [hd] at hv; simp [assertBytes] at hv
      | some e =>
        rcases e with ⟨val, t⟩
        rw [hd] at hv
        cases val with
        | bytes b =>
          simp only [Option.map_some', assertBytes, Option.some.injEq] at hv
          exact ⟨t, by rw [hv]⟩
        | other n => simp [assertBytes] at hv
    obtain ⟨t, ht⟩ := hentry
    rcases h with h | h | h | ⟨v1, t1, h1, h2⟩
    · exact absurd h hid
    · exact absurd h hans
    · exact absurd ht (h v t)
    · rw [ht] at h1
      simp only [Option.some.injEq, Entry.mk.injEq, Value.bytes.injEq] at h1
      rw [h1.1]
      exact h2

theorem Verify_true_iff_witness :
    (Verify sampleCaptcha (lit "ab") (lit "31") sampleStore).1 = Outcome.ret true ∧
    (Verify sampleCaptcha (lit "ab") (lit "32") sampleStore).1 = Outcome.ret false ∧
    (Verify sampleCaptcha (lit "zz") (lit "31") sampleStore).1 = Outcome.ret false :=
  ⟨(((Verify_true_iff sampleCaptcha sampleStore (lit "ab") (lit "31")).1 [3, 1] 600
      (by decide) (by decide) (by decide) (by decide)).1).2 (by decide),
   (((Verify_true_iff sampleCaptcha sampleStore (lit "ab") (lit "32")).1 [3, 1] 600
      (by decide) (by decide) (by decide) (by decide)).2).resolve_left (by decide),
   (Verify_true_iff sampleCaptcha sampleStore (lit "zz") (lit "31")).2
      (Or.inr (Or.inr (Or.inl (by
        intro v t h
        have h1 : sampleStore.data (key sampleCaptcha (lit "zz"))
            = some ⟨Value.other 0, 600⟩ := by decide
        rw [h1] at h
        simp at h))))⟩

/-- C2: on an empty id, an empty answer, an id with no entry in the cache, or a
stored challenge of another length than the answer, `Verify` returns false, the
content of the cache and its coming `Put` results are as before, and the only
calls made on the cache are reads. -/
theorem Verify_reject_no_mutation (c : Captcha) (s : Store) (id answer : GoString)
    (h : id = [] ∨ answer = [] ∨ s.data (key c id) = none ∨
      (∃ (v : List Byte) (t : Int),
        s.data (key c id) = some ⟨Value.bytes v, t⟩ ∧ v.length ≠ answer.length)) :
    (Verify c id answer s).1 = Outcome.ret false ∧
    (Verify c id answer s).2.data = s.data ∧
    (Verify c id answer s).2.putErrs = s.putErrs ∧
    ∃ ops, (Verify c id answer s).2.trace = s.trace ++ ops ∧
      ∀ op ∈ ops, op.isGet = true := by
  by_cases hid : id = []
  · rw [Verify_empty c s id answer (Or.inl hid)]
    exact ⟨rfl, rfl, rfl, [], by simp, by simp⟩
  by_cases hans : answer = []
  · rw [Verify_empty c s id answer (Or.inr hans)]
    exact ⟨rfl, rfl, rfl, [], by simp, by simp⟩
  rw [Verify_miss c s id answer hid hans]
  · refine ⟨rfl, rfl, rfl, [StoreOp.get (key c id)], rfl, ?_⟩
    intro op hop
    simp only [List.mem_singleton] at hop
    subst hop
    rfl
  · intro v hv
    rcases h with h | h | h | ⟨v1, t1, h1, h2⟩
    · exact absurd h hid
    · exact absurd h hans
    · rw [h] at hv; simp [assertBytes] at hv
    · rw [h1] at hv
      simp only [Option.map_some', assertBytes, Option.some.injEq] at hv
      rw [← hv]
      exact h2

theorem Verify_reject_no_mutation_witness :
    (Verify sampleCaptcha (lit "ab") (lit "314") sampleStore).1 = Outcome.ret false ∧
    (Verify sampleCaptcha (lit "ab") (lit "314") sampleStore).2.data = sampleStore.data ∧
    (Verify sampleCaptcha (lit "ab") (lit "314") sampleStore).2.putErrs
      = sampleStore.putErrs ∧
    ∃ ops, (Verify sampleCaptcha (lit "ab") (lit "314") sampleStore).2.trace
        = sampleStore.trace ++ ops ∧ ∀ op ∈ ops, op.isGet = true :=
  Verify_reject_no_mutation sampleCaptcha sampleStore (lit "ab") (lit "314")
    (Or.inr (Or.inr (Or.inr ⟨[3, 1], 600, by decide, by decide⟩)))

/-- C3: when the cache holds a challenge under `CachePrefix + id` as long as the
answer, and id and answer are not empty, then after `Verify` the cache has no
entry under `CachePrefix + id`, whether the result was true or false, and the
entry under every other key is as before. -/
theorem Verify_consumes (c : Captcha) (s : Store) (id answer v : GoString) (t : Int)
    (hid : id ≠ []) (hans : answer ≠ [])
    (hget : s.data (key c id) = some ⟨Value.bytes v, t⟩)
    (hlen : v.length = answer.length) :
    ((Verify c id answer s).1 = Outcome.ret true ∨
      (Verify c id answer s).1 = Outcome.ret false) ∧
    (Verify c id answer s).2.data (key c id) = none ∧
    ∀ k, k ≠ key c id → (Verify c id answer s).2.data k = s.data k := by
  rw [Verify_hit c s id answer v t hid hans hget hlen]
  refine ⟨?_, ?_, ?_⟩
  · by_cases hv : v = answer.map digitOf <;> simp [hv]
  · simp [Store.Delete]
  · intro k hk
    simp [Store.Delete, Store.Get, hk]

theorem Verify_consumes_witness :
    ((Verify sampleCaptcha (lit "ab") (lit "99") sampleStore).1 = Outcome.ret true ∨
      (Verify sampleCaptcha (lit "ab") (lit "99") sampleStore).1 = Outcome.ret false) ∧
    (Verify sampleCaptcha (lit "ab") (lit "99") sampleStore).2.data
      (key sampleCaptcha (lit "ab")) = none ∧
    ∀ k, k ≠ key sampleCaptcha (lit "ab") →
      (Verify sampleCaptcha (lit "ab") (lit "99") sampleStore).2.data k
        = sampleStore.data k :=
  Verify_consumes sampleCaptcha sampleStore (lit "ab") (lit "99") [3, 1] 600
    (by decide) (by decide) (by decide) (by decide)

/-- C4: when `ChallengeNums` is at least 1 and `CreateCaptcha` returns an id
without error, the cache holds digits `d` under that id, their decimal string
has `ChallengeNums` characters, all of them ASCII digits, `Verify` accepts it,
and a `Verify` of the same id right after returns false for every answer. -/
theorem create_verify_roundtrip (c : Captcha) (s : Store) (r : Rand) (id : GoString)
    (hN : 1 ≤ c.ChallengeNums)
    (hcreate : (CreateCaptcha c s r).1 = Outcome.ret (id, none)) :
    ∃ d : List Byte,
      (CreateCaptcha c s r).2.1.data (key c id) = some ⟨Value.bytes d, c.Expiration⟩ ∧
      ((decimalString d).length : Int) = c.ChallengeNums ∧
      (∀ b ∈ decimalString d, 48 ≤ b.val ∧ b.val ≤ 57) ∧
      (Verify c id (decimalString d) (CreateCaptcha c s r).2.1).1 = Outcome.ret true ∧
      ∀ a : GoString,
        (Verify c id a (Verify c id (decimalString d) (CreateCaptcha c s r).2.1).2).1
          = Outcome.ret false := by
  obtain ⟨h0, herr, hid, hs⟩ := CreateCaptcha_ret c s r id none hcreate
  simp only [if_true] at hid
  have hdata := Store.Put_data_ok s (key c (newId r)) (Value.bytes (newChars c r))
    c.Expiration herr.symm
  have hget : (CreateCaptcha c s r).2.1.data (key c id)
      = some ⟨Value.bytes (newChars c r), c.Expiration⟩ := by
    rw [hs, hdata, hid]
    simp
  have hlen : (newChars c r).length = c.ChallengeNums.toNat := newChars_length c r
  have hne : newChars c r ≠ [] := by
    intro h
    rw [h] at hlen
    simp only [List.length_nil] at hlen
    omega
  have hidne : id ≠ [] := by rw [hid]; exact newId_ne_nil r
  have hv := Verify_decimalString c _ id (newChars c r) c.Expiration hidne hne hget
  refine ⟨newChars c r, hget, ?_, ?_, ?_, ?_⟩
  · rw [decimalString_length, hlen]
    omega
  · intro b hb
    simp only [decimalString, List.mem_map] at hb
    obtain ⟨x, hx, rfl⟩ := hb
    have hx9 := newChars_le c r x hx
    show 48 ≤ (x.val + 48) % 256 ∧ (x.val + 48) % 256 ≤ 57
    omega
  · rw [hv]
  · intro a
    apply Verify_absent
    rw [hv]
    simp [Store.Delete]

theorem create_verify_roundtrip_witness :
    ∃ d : List Byte,
      (CreateCaptcha sampleCaptcha sampleStore sampleRand).2.1.data
        (key sampleCaptcha (lit "3AHOVcjqx4BIPWd"))
          = some ⟨Value.bytes d, sampleCaptcha.Expiration⟩ ∧
      ((decimalString d).length : Int) = sampleCaptcha.ChallengeNums ∧
      (∀ b ∈ decimalString d, 48 ≤ b.val ∧ b.val ≤ 57) ∧
      (Verify sampleCaptcha (lit "3AHOVcjqx4BIPWd") (decimalString d)
        (CreateCaptcha sampleCaptcha sampleStore sampleRand).2.1).1 = Outcome.ret true ∧
      ∀ a : GoString,
        (Verify sampleCaptcha (lit "3AHOVcjqx4BIPWd") a
          (Verify sampleCaptcha (lit "3AHOVcjqx4BIPWd") (decimalString d)
            (CreateCaptcha sampleCaptcha sampleStore sampleRand).2.1).2).1
          = Outcome.ret false :=
  create_verify_roundtrip sampleCaptcha sampleStore sampleRand (lit "3AHOVcjqx4BIPWd")
    (by decide) (by decide)

/-- C5: when a challenge `d` is live under an id and a non-empty answer `w` of
the same length differs from the decimal string of `d` in some position,
`Verify` of `w` returns false, and so does a `Verify` of the decimal string of
`d` after it. -/
theorem wrong_digits_consume (c : Captcha) (s : Store) (id w d : GoString) (t : Int)
    (hget : s.data (key c id) = some ⟨Value.bytes d, t⟩)
    (hw : w ≠ []) (hlen : w.length = d.length)
    (hdiff : ∃ i : Nat, w.get? i ≠ (decimalString d).get? i) :
    (Verify c id w s).1 = Outcome.ret false ∧
    (Verify c id (decimalString d) (Verify c id w s).2).1 = Outcome.ret false := by
  by_cases hid : id = []
  · rw [Verify_empty c s id w (Or.inl hid)]
    exact ⟨rfl, by rw [Verify_empty c s id _ (Or.inl hid)]⟩
  rw [Verify_hit c s id w d t hid hw hget hlen.symm]
  have hne : d ≠ w.map digitOf := by
    intro h
    obtain ⟨i, hi⟩ := hdiff
    apply hi
    rw [h, decimalString_digitOf]
  refine ⟨by simp [hne], ?_⟩
  apply Verify_absent
  simp [Store.Delete]

theorem wrong_digits_consume_witness :
    (Verify sampleCaptcha (lit "ab") (lit "32") sampleStore).1 = Outcome.ret false ∧
    (Verify sampleCaptcha (lit "ab") (decimalString [3, 1])
      (Verify sampleCaptcha (lit "ab") (lit "32") sampleStore).2).1 = Outcome.ret false :=
  wrong_digits_consume sampleCaptcha sampleStore (lit "ab") (lit "32") [3, 1] 600
    (by decide) (by decide) (by decide) ⟨1, by decide⟩

/-- C6: when a non-empty challenge `d` is live under a non-empty id and the
answer `w` has another length than `d`, `Verify` of `w` returns false, and a
`Verify` of the decimal string of `d` after it returns true. -/
theorem length_mismatch_keeps (c : Captcha) (s : Store) (id w d : GoString) (t : Int)
    (hid : id ≠ []) (hd : d ≠ [])
    (hget : s.data (key c id) = some ⟨Value.bytes d, t⟩)
    (hlen : w.length ≠ d.length) :
    (Verify c id w s).1 = Outcome.ret false ∧
    (Verify c id (decimalString d) (Verify c id w s).2).1 = Outcome.ret true := by
  by_cases hw : w = []
  · rw [Verify_empty c s id w (Or.inr hw)]
    exact ⟨rfl, by rw [Verify_decimalString c s id d t hid hd hget]⟩
  have hmiss : Verify c id w s = (Outcome.ret false, (s.Get (key c id)).2) := by
    apply Verify_miss c s id w hid hw
    intro v hv
    rw [hget] at hv
    simp only [Option.map_some', assertBytes, Option.some.injEq] at hv
    rw [← hv]
    exact fun h => hlen h.symm
  rw [hmiss]
  exact ⟨rfl, by rw [Verify_decimalString c _ id d t hid hd (by simpa [Store.Get] using hget)]⟩

theorem length_mismatch_keeps_witness :
    (Verify sampleCaptcha (lit "ab") (lit "314") sampleStore).1 = Outcome.ret false ∧
    (Verify sampleCaptcha (lit "ab") (decimalString [3, 1])
      (Verify sampleCaptcha (lit "ab") (lit "314") sampleStore).2).1 = Outcome.ret true :=
  length_mismatch_keeps sampleCaptcha sampleStore (lit "ab") (lit "314") [3, 1] 600
    (by decide) (by decide) (by decide) (by decide)

/-! ## Creation -/

/-- C7: whatever the random source yields, when `CreateCaptcha` returns an id
without error, the one call it made on the cache put, under `CachePrefix + id`
and with the timeout `Expiration`, a challenge of exactly `ChallengeNums` bytes,
each a digit value from 0 to 9, and that entry is live afterwards. -/
theorem CreateCaptcha_stores (c : Captcha) (s : Store) (r : Rand) (id : GoString)
    (hcreate : (CreateCaptcha c s r).1 = Outcome.ret (id, none)) :
    ∃ d : List Byte,
      (CreateCaptcha c s r).2.1.data (key c id) = some ⟨Value.bytes d, c.Expiration⟩ ∧
      (CreateCaptcha c s r).2.1.trace
        = s.trace ++ [StoreOp.put (c.CachePrefix ++ id) (Value.bytes d) c.Expiration] ∧
      (d.length : Int) = c.ChallengeNums ∧
      ∀ b ∈ d, b.val ≤ 9 := by
  obtain ⟨h0, herr, hid, hs⟩ := CreateCaptcha_ret c s r id none hcreate
  simp only [if_true] at hid
  have hdata := Store.Put_data_ok s (key c (newId r)) (Value.bytes (newChars c r))
    c.Expiration herr.symm
  refine ⟨newChars c r, ?_, ?_, ?_, newChars_le c r⟩
  · rw [hs, hdata, hid]
    simp
  · rw [hs, Store.Put_trace, hid]
    rfl
  · rw [newChars_length]
    omega

theorem CreateCaptcha_stores_witness :
    ∃ d : List Byte,
      (CreateCaptcha sampleCaptcha sampleStore sampleRand).2.1.data
        (key sampleCaptcha (lit "3AHOVcjqx4BIPWd"))
          = some ⟨Value.bytes d, sampleCaptcha.Expiration⟩ ∧
      (CreateCaptcha sampleCaptcha sampleStore sampleRand).2.1.trace
        = sampleStore.trace ++ [StoreOp.put
            (sampleCaptcha.CachePrefix ++ lit "3AHOVcjqx4BIPWd") (Value.bytes d)
            sampleCaptcha.Expiration] ∧
      (d.length : Int) = sampleCaptcha.ChallengeNums ∧
      ∀ b ∈ d, b.val ≤ 9 :=
  CreateCaptcha_stores sampleCaptcha sampleStore sampleRand (lit "3AHOVcjqx4BIPWd")
    (by decide)

/-- C8: when `CreateCaptcha` returns `(id, err)`, the error is not nil exactly
when the cache's `Put` fails, and it is that `Put`'s error; `Put` was called
exactly once and nothing else was called on the cache; with an error the id is
the empty string, without one it is not empty. -/
theorem CreateCaptcha_error_iff (c : Captcha) (s : Store) (r : Rand) (id : GoString)
    (err : Option GoError) (h : (CreateCaptcha c s r).1 = Outcome.ret (id, err)) :
    (err ≠ none ↔ ∃ e rest, s.putErrs = some e :: rest) ∧
    err = s.putErrs.head?.join ∧
    (∃ k v t, (CreateCaptcha c s r).2.1.trace = s.trace ++ [StoreOp.put k v t]) ∧
    (err ≠ none → id = []) ∧
    (err = none → id ≠ []) := by
  obtain ⟨h0, herr, hid, hs⟩ := CreateCaptcha_ret c s r id err h
  rw [Store.Put_err] at herr
  refine ⟨?_, herr, ⟨_, _, _, by rw [hs, Store.Put_trace]⟩, ?_, ?_⟩
  · rw [herr]
    rcases hp : s.putErrs with _ | ⟨_ | e, rest⟩ <;> simp
  · intro hne
    rw [hid, if_neg hne]
  · intro he
    rw [hid, if_pos he]
    exact newId_ne_nil r

theorem CreateCaptcha_error_iff_witness :
    ((some (GoError.mk 1) : Option GoError) ≠ none ↔
      ∃ e rest, failingStore.putErrs = some e :: rest) ∧
    some (GoError.mk 1) = failingStore.putErrs.head?.join ∧
    (∃ k v t, (CreateCaptcha sampleCaptcha failingStore sampleRand).2.1.trace
      = failingStore.trace ++ [StoreOp.put k v t]) ∧
    ((some (GoError.mk 1) : Option GoError) ≠ none → ([] : GoString) = []) ∧
    ((some (GoError.mk 1) : Option GoError) = none → ([] : GoString) ≠ []) :=
  CreateCaptcha_error_iff sampleCaptcha failingStore sampleRand [] (some ⟨1⟩) (by decide)

/-! ## Lemmas on the string functions and on the options -/

theorem HasPrefix_append (p x : GoString) : HasPrefix (p ++ x) p = true := by
  simp [HasPrefix]

theorem HasPrefix_iff (s p : GoString) : HasPrefix s p = true ↔ ∃ x, s = p ++ x := by
  simp only [HasPrefix, decide_eq_true_eq]
  constructor
  · rintro ⟨_, h⟩
    refine ⟨s.drop p.length, ?_⟩
    have hsplit := List.take_append_drop p.length s
    rw [h] at hsplit
    exact hsplit.symm
  · rintro ⟨x, rfl⟩
    simp

theorem lastIndexFrom_hit (s sub : GoString) (n : Nat)
    (h : sub.isPrefixOf (s.drop n) = true) : lastIndexFrom s sub n = (n : Int) := by
  cases n with
  | zero =>
    simp only [List.drop_zero] at h
    simp [lastIndexFrom, h]
  | succ m => simp [lastIndexFrom, h]

theorem lastIndexFrom_skip (s sub : GoString) (n : Nat)
    (h : sub.isPrefixOf (s.drop (n + 1)) = false) :
    lastIndexFrom s sub (n + 1) = lastIndexFrom s sub n := by
  simp [lastIndexFrom, h]

theorem slash_isPrefixOf (l : GoString) (h : (47 : Byte) ∉ l) :
    List.isPrefixOf [(47 : Byte)] l = false := by
  cases l with
  | nil => rfl
  | cons a rest =>
    have ha : (47 : Byte) ≠ a := fun e => h (by simp [e])
    simp [List.isPrefixOf, ha]

/-- The last slash of `p0 ++ "/" ++ seg`, when `seg` has none, is the one
before `seg`. -/
theorem lastIndexFrom_segment (p0 seg : GoString) (h : (47 : Byte) ∉ seg) :
    ∀ k, k ≤ seg.length + 1 →
      lastIndexFrom (p0 ++ 47 :: seg) [47] (p0.length + k) = (p0.length : Int) := by
  intro k
  induction k with
  | zero =>
    intro _
    apply lastIndexFrom_hit
    simp [List.isPrefixOf]
  | succ k ih =>
    intro hk
    have hd : (p0 ++ 47 :: seg).drop (p0.length + k + 1) = seg.drop k := by
      rw [show p0.length + k + 1 = p0.length + (k + 1) by omega, List.drop_append]
      rfl
    rw [show p0.length + (k + 1) = (p0.length + k) + 1 by omega, lastIndexFrom_skip]
    · exact ih (by omega)
    · rw [hd]
      apply slash_isPrefixOf
      exact fun hm => h (List.mem_of_mem_drop hm)

theorem dropWhile_slash_reverse (l : GoString) (hne : l ≠ [])
    (hlast : l.getLast? ≠ some 47) :
    (l.reverse.dropWhile (fun b => b = 47)).reverse = l := by
  cases hr : l.reverse with
  | nil => exact absurd (List.reverse_eq_nil_iff.mp hr) hne
  | cons a rest =>
    have hl : l = rest.reverse ++ [a] := by
      have := congrArg List.reverse hr
      simpa using this
    have ha : a ≠ 47 := by
      intro e
      apply hlast
      rw [hl, e]
      simp
    simp [List.dropWhile, ha, hl]

/-- `path.Base` of a path ending in a slash-free, non-empty segment is that
segment. -/
theorem pathBase_segment (p0 seg : GoString) (hne : seg ≠ []) (h : (47 : Byte) ∉ seg) :
    pathBase (p0 ++ 47 :: seg) = seg := by
  have hnil : p0 ++ 47 :: seg ≠ [] := by simp
  have hlast : (p0 ++ 47 :: seg).getLast? ≠ some 47 := by
    rw [show p0 ++ 47 :: seg = (p0 ++ [47]) ++ seg by simp, List.getLast?_append_of_ne_nil _ hne]
    intro e
    exact h (List.mem_of_getLast?_eq_some e)
  have hstrip := dropWhile_slash_reverse _ hnil hlast
  have hidx : LastIndex (p0 ++ 47 :: seg) (lit "/") = (p0.length : Int) := by
    have := lastIndexFrom_segment p0 seg h (seg.length + 1) le_rfl
    rw [LastIndex, show lit "/" = [47] from rfl,
      show (p0 ++ 47 :: seg).length = p0.length + (seg.length + 1) by simp]
    exact this
  have hdrop : (p0 ++ 47 :: seg).drop (p0.length + 1) = seg := by
    rw [show p0 ++ 47 :: seg = (p0 ++ [47]) ++ seg by simp]
    exact List.drop_left' (by simp)
  simp only [pathBase, hnil, if_false, hstrip, hidx]
  have hge : (p0.length : Int) ≥ 0 := Int.ofNat_nonneg _
  have htn : ((p0.length : Int) + 1).toNat = p0.length + 1 := by omega
  simp only [hge, if_true, htn, hdrop, hne, if_false]

theorem indexFrom_dot_absent (l : GoString) (h : (46 : Byte) ∉ l) :
    ∀ i, indexFrom [46] l i = -1 := by
  induction l with
  | nil => intro i; simp [indexFrom]
  | cons a rest ih =>
    intro i
    have ha : (46 : Byte) ≠ a := fun e => h (by simp [e])
    have hr : (46 : Byte) ∉ rest := fun hm => h (List.mem_cons_of_mem _ hm)
    simp [indexFrom, List.isPrefixOf, ha, ih hr]

theorem indexFrom_dot_first (a rest : GoString) (h : (46 : Byte) ∉ a) :
    ∀ i, indexFrom [46] (a ++ 46 :: rest) i = ((i + a.length : Nat) : Int) := by
  induction a with
  | nil => intro i; simp [indexFrom, List.isPrefixOf]
  | cons x xs ih =>
    intro i
    have hx : (46 : Byte) ≠ x := fun e => h (by simp [e])
    have hr : (46 : Byte) ∉ xs := fun hm => h (List.mem_cons_of_mem _ hm)
    have hpre : List.isPrefixOf [(46 : Byte)] (x :: (xs ++ 46 :: rest)) = false := by
      simp [List.isPrefixOf, hx]
    rw [List.cons_append, indexFrom, hpre]
    simp only [Bool.false_eq_true, if_false, ih hr (i + 1), List.length_cons]
    congr 1
    omega

/-- The id taken from a URI whose last segment has no dot is that segment. -/
theorem extractId_plain (p0 seg : GoString) (hne : seg ≠ []) (hs : (47 : Byte) ∉ seg)
    (hd : (46 : Byte) ∉ seg) : extractId (p0 ++ 47 :: seg) = seg := by
  simp [extractId, pathBase_segment p0 seg hne hs, Index, show lit "." = [46] from rfl,
    indexFrom_dot_absent seg hd]

/-- The id taken from a URI whose last segment is `id ++ "." ++ rest`, with no
dot in `id`, is `id`. -/
theorem extractId_dot (p0 id rest : GoString) (hs : (47 : Byte) ∉ id)
    (hd : (46 : Byte) ∉ id) (hr : (47 : Byte) ∉ rest) :
    extractId (p0 ++ 47 :: (id ++ 46 :: rest)) = id := by
  have hseg : (47 : Byte) ∉ id ++ 46 :: rest := by
    simp only [List.mem_append, List.mem_cons, not_or]
    exact ⟨hs, by decide, hr⟩
  have hne : id ++ 46 :: rest ≠ [] := by simp
  have hidx := indexFrom_dot_first id rest hd 0
  simp only [extractId, pathBase_segment p0 _ hne hseg, Index, show lit "." = [46] from rfl,
    hidx]
  have hgt : ((0 + id.length : Nat) : Int) > -1 := by omega
  simp only [hgt, if_true, Int.toNat_ofNat, Nat.zero_add]
  exact List.take_left' rfl

theorem setFieldIdName_URLPrefix (o : Options) :
    (setFieldIdName o).URLPrefix = o.URLPrefix := by
  unfold setFieldIdName; split_ifs <;> rfl

theorem setFieldCaptchaName_URLPrefix (o : Options) :
    (setFieldCaptchaName o).URLPrefix = o.URLPrefix := by
  unfold setFieldCaptchaName; split_ifs <;> rfl

theorem setChallengeNums_URLPrefix (o : Options) :
    (setChallengeNums o).URLPrefix = o.URLPrefix := by
  unfold setChallengeNums; split_ifs <;> rfl

theorem setExpiration_URLPrefix (o : Options) :
    (setExpiration o).URLPrefix = o.URLPrefix := by
  unfold setExpiration; split_ifs <;> rfl

theorem setCachePrefix_URLPrefix (o : Options) :
    (setCachePrefix o).URLPrefix = o.URLPrefix := by
  unfold setCachePrefix; split_ifs <;> rfl

/-- The URL prefix `prepareOptions` yields. -/
theorem prepareOptions_URLPrefix (options : List Options) :
    (prepareOptions options).URLPrefix =
      (if (options.headD Options.zero).URLPrefix.length = 0 then lit "/captcha/"
       else if (options.headD Options.zero).URLPrefix.get?
            ((options.headD Options.zero).URLPrefix.length - 1) ≠ some 47 then
         (options.headD Options.zero).URLPrefix ++ lit "/"
       else (options.headD Options.zero).URLPrefix) := by
  have h : ∀ o : Options, (setURLPrefix o).URLPrefix =
      (if o.URLPrefix.length = 0 then lit "/captcha/"
       else if o.URLPrefix.get? (o.URLPrefix.length - 1) ≠ some 47 then
         o.URLPrefix ++ lit "/"
       else o.URLPrefix) := by
    intro o
    unfold setURLPrefix
    split_ifs <;> rfl
  cases options with
  | nil =>
    simp only [prepareOptions, setCachePrefix_URLPrefix, setExpiration_URLPrefix,
      setChallengeNums_URLPrefix, setFieldCaptchaName_URLPrefix, setFieldIdName_URLPrefix, h,
      List.headD_nil]
  | cons o rest =>
    simp only [prepareOptions, setCachePrefix_URLPrefix, setExpiration_URLPrefix,
      setChallengeNums_URLPrefix, setFieldCaptchaName_URLPrefix, setFieldIdName_URLPrefix, h,
      List.headD_cons]

/-- The URL prefix `prepareOptions` yields ends with a slash. -/
theorem prepareOptions_URLPrefix_slash (options : List Options) :
    ∃ p0, (prepareOptions options).URLPrefix = p0 ++ [47] := by
  rw [prepareOptions_URLPrefix]
  split_ifs with h1 h2
  · exact ⟨lit "/captcha", by decide⟩
  · exact ⟨_, rfl⟩
  · have hne : (options.headD Options.zero).URLPrefix ≠ [] :=
      fun e => h1 (by rw [e]; rfl)
    refine ⟨(options.headD Options.zero).URLPrefix.dropLast, ?_⟩
    have hlast := List.dropLast_append_getLast hne
    have hget : (options.headD Options.zero).URLPrefix.getLast hne = 47 := by
      rw [List.getLast_eq_getElem]
      have h3 := not_not.mp h2
      have hlt : (options.headD Options.zero).URLPrefix.length - 1
          < (options.headD Options.zero).URLPrefix.length :=
        Nat.sub_lt (List.length_pos.mpr hne) Nat.one_pos
      rw [List.get?_eq_getElem?, List.getElem?_eq_getElem hlt] at h3
      exact Option.some.inj h3
    rw [hget] at hlast
    exact hlast.symm

/-- The calls the handler makes on the cache for a request under the URL
prefix: all on the key of the extracted id, and exactly one unless the
generation of fresh digits panics. -/
theorem Captchaer_trace_key (img : Imaging) (options : List Options) (ctx : Context)
    (s : Store) (r : Rand)
    (hp : HasPrefix ctx.Req.RequestURI (prepareOptions options).URLPrefix = true) :
    ∃ ops, (Captchaer img options ctx s r).2.2.1.trace = s.trace ++ ops ∧
      (∀ op ∈ ops,
        op.key = (prepareOptions options).CachePrefix ++ extractId ctx.Req.RequestURI) ∧
      ((ctx.Req.reload = [] ∨ 0 ≤ (prepareOptions options).ChallengeNums) →
        ops.length = 1) := by
  simp only [Captchaer, NewCaptcha, hp, if_true, key]
  by_cases hre : ctx.Req.reload.length > 0
  · simp only [hre, if_true, genRandChars, RandomCreateBytes]
    by_cases hN : (prepareOptions options).ChallengeNums < 0
    · simp only [hN, if_true]
      refine ⟨[], by simp, by simp, ?_⟩
      rintro (h | h)
      · rw [h] at hre; simp at hre
      · omega
    · simp only [hN, if_false]
      generalize hchars : randBytes (prepareOptions options).ChallengeNums.toNat
        (if defaultChars.length = 0 then alphanum else defaultChars) r = chars
      have htr := Store.Put_trace s
        ((prepareOptions options).CachePrefix ++ extractId ctx.Req.RequestURI)
        (Value.bytes chars) (prepareOptions options).Expiration
      cases hput : s.Put
        ((prepareOptions options).CachePrefix ++ extractId ctx.Req.RequestURI)
        (Value.bytes chars) (prepareOptions options).Expiration with
      | mk e s1 =>
        rw [hput] at htr
        simp only at htr
        cases e with
        | none => exact ⟨_, htr, by simp [StoreOp.key], fun _ => rfl⟩
        | some e1 =>
          dsimp only
          cases ctx.Status 500 with
          | mk o ctx1 =>
            cases o <;> exact ⟨_, htr, by simp [StoreOp.key], fun _ => rfl⟩
  · simp only [hre, if_false, Store.Get]
    cases assertBytes (Option.map Entry.val
        (s.data ((prepareOptions options).CachePrefix ++ extractId ctx.Req.RequestURI))) with
    | none =>
      dsimp only
      cases ctx.Status 404 with
      | mk o ctx1 =>
        cases o <;> exact ⟨_, rfl, by simp [StoreOp.key], fun _ => rfl⟩
    | some v => exact ⟨_, rfl, by simp [StoreOp.key], fun _ => rfl⟩

/-! ## The handler -/

/-- C9: the claim fails on the code at the request `/captcha/abc?reload=1`, a
URI of the documented form (id `abc`, no extension, reload value `1`): the
handler takes `path.Base` of the URI with the query string still attached, so
the id it extracts is `abc?reload=1`, not `abc`, and it puts the fresh
challenge under `captcha_abc?reload=1`, not under `captcha_abc`; likewise for
`/captcha/abc.png?reload=a/b` the id it extracts is `b`. -/
theorem dispatcher_id_keeps_query :
    requestForm (prepareOptions []).URLPrefix (lit "abc") none (some (lit "1"))
      = lit "/captcha/abc?reload=1" ∧
    extractId (lit "/captcha/abc?reload=1") = lit "abc?reload=1" ∧
    extractId (lit "/captcha/abc?reload=1") ≠ lit "abc" ∧
    (Captchaer sampleImaging [] (freshContext (lit "/captcha/abc?reload=1") (lit "1"))
        sampleStore sampleRand).2.2.1.trace
      = [StoreOp.put (lit "captcha_abc?reload=1") (Value.bytes [3, 0, 7, 4, 1, 8]) 600] ∧
    lit "captcha_abc?reload=1" ≠ (prepareOptions []).CachePrefix ++ lit "abc" ∧
    (Captchaer sampleImaging [] (freshContext (lit "/captcha/abc?reload=1") (lit "1"))
        sampleStore sampleRand).2.2.1.data ((prepareOptions []).CachePrefix ++ lit "abc")
      = none ∧
    requestForm (prepareOptions []).URLPrefix (lit "abc") (some (lit "png"))
        (some (lit "a/b")) = lit "/captcha/abc.png?reload=a/b" ∧
    extractId (lit "/captcha/abc.png?reload=a/b") = lit "b" := by
  decide

/-- C10: for a request whose URI does not start with the configured URL prefix
the handler returns normally, makes no call on the cache (the cache and its
trace are as before), draws no random number, does nothing on the response,
renders no image, and only sets `ctx.Data["Captcha"]` and maps the service. -/
theorem Captchaer_pass_through (img : Imaging) (options : List Options) (ctx : Context)
    (s : Store) (r : Rand)
    (h : ¬ ((prepareOptions options).URLPrefix <+: ctx.Req.RequestURI)) :
    (Captchaer img options ctx s r).1 = Outcome.ret () ∧
    (Captchaer img options ctx s r).2.2.1 = s ∧
    (Captchaer img options ctx s r).2.2.2 = r ∧
    (Captchaer img options ctx s r).2.1.resp = ctx.resp ∧
    (Captchaer img options ctx s r).2.1.rendered = ctx.rendered ∧
    (Captchaer img options ctx s r).2.1.Req = ctx.Req ∧
    (Captchaer img options ctx s r).2.1.dataCaptcha
      = some (NewCaptcha img (prepareOptions options)) ∧
    (Captchaer img options ctx s r).2.1.mapped
      = ctx.mapped ++ [NewCaptcha img (prepareOptions options)] := by
  have hp : HasPrefix ctx.Req.RequestURI (NewCaptcha img (prepareOptions options)).URLPrefix
      = false := by
    rw [Bool.eq_false_iff]
    intro ht
    rw [HasPrefix_iff] at ht
    obtain ⟨x, hx⟩ := ht
    exact h ⟨x, hx.symm⟩
  simp only [Captchaer, hp]
  exact ⟨rfl, rfl, rfl, rfl, rfl, rfl, rfl, rfl⟩

theorem Captchaer_pass_through_witness :
    (Captchaer sampleImaging [] (freshContext (lit "/") []) sampleStore sampleRand).1
      = Outcome.ret () ∧
    (Captchaer sampleImaging [] (freshContext (lit "/") []) sampleStore sampleRand).2.2.1
      = sampleStore ∧
    (Captchaer sampleImaging [] (freshContext (lit "/") []) sampleStore sampleRand).2.2.2
      = sampleRand ∧
    (Captchaer sampleImaging [] (freshContext (lit "/") []) sampleStore sampleRand).2.1.resp
      = (freshContext (lit "/") []).resp ∧
    (Captchaer sampleImaging [] (freshContext (lit "/") []) sampleStore
      sampleRand).2.1.rendered = (freshContext (lit "/") []).rendered ∧
    (Captchaer sampleImaging [] (freshContext (lit "/") []) sampleStore sampleRand).2.1.Req
      = (freshContext (lit "/") []).Req ∧
    (Captchaer sampleImaging [] (freshContext (lit "/") []) sampleStore
      sampleRand).2.1.dataCaptcha = some (NewCaptcha sampleImaging (prepareOptions [])) ∧
    (Captchaer sampleImaging [] (freshContext (lit "/") []) sampleStore
      sampleRand).2.1.mapped
      = (freshContext (lit "/") []).mapped ++ [NewCaptcha sampleImaging (prepareOptions [])] :=
  Captchaer_pass_through sampleImaging [] (freshContext (lit "/") []) sampleStore sampleRand
    (by decide)

/-! ## Lemmas on the branches of the handler -/

theorem assertBytes_eq_some_iff (e : Option Entry) (v : List Byte) :
    assertBytes (e.map Entry.val) = some v ↔ ∃ t, e = some ⟨Value.bytes v, t⟩ := by
  cases e with
  | none => simp [assertBytes]
  | some x =>
    rcases x with ⟨val, t⟩
    cases val with
    | bytes b =>
      simp only [Option.map_some', assertBytes, Option.some.injEq, Entry.mk.injEq,
        Value.bytes.injEq]
      constructor
      · intro h; exact ⟨t, h, rfl⟩
      · rintro ⟨_, h, _⟩; exact h
    | other n => simp [assertBytes]

theorem assertBytes_eq_none_iff (e : Option Entry) :
    assertBytes (e.map Entry.val) = none ↔
      ∀ (v : List Byte) (t : Int), e ≠ some ⟨Value.bytes v, t⟩ := by
  constructor
  · intro h v t he
    have := (assertBytes_eq_some_iff e v).mpr ⟨t, he⟩
    rw [h] at this
    exact Option.noConfusion this
  · intro h
    cases hv : assertBytes (e.map Entry.val) with
    | none => rfl
    | some v =>
      obtain ⟨t, ht⟩ := (assertBytes_eq_some_iff e v).mp hv
      exact absurd ht (h v t)

/-- What `writeCaptcha` leaves in the context: the challenge is handed to the
renderer and the bytes it wrote are in the response. -/
theorem writeCaptcha_ctx (img : Imaging) (cpt : Captcha) (chars : List Byte) (ctx : Context) :
    (writeCaptcha img cpt chars ctx).2 =
      { ctx with rendered := ctx.rendered ++ [chars],
                 resp := ctx.resp ++
                   [RespOp.write (img.writeImage chars cpt.StdWidth cpt.StdHeight).1] } := by
  unfold writeCaptcha
  dsimp only
  split <;> rfl

/-- The handler on a request under the URL prefix without a reload value. -/
theorem Captchaer_fetch (img : Imaging) (options : List Options) (ctx : Context)
    (s : Store) (r : Rand)
    (hp : HasPrefix ctx.Req.RequestURI (prepareOptions options).URLPrefix = true)
    (hre : ctx.Req.reload = []) :
    Captchaer img options ctx s r =
      (match assertBytes ((s.data ((prepareOptions options).CachePrefix
          ++ extractId ctx.Req.RequestURI)).map Entry.val) with
       | some v =>
         ((writeCaptcha img (NewCaptcha img (prepareOptions options)) v ctx).1,
          (writeCaptcha img (NewCaptcha img (prepareOptions options)) v ctx).2,
          (s.Get ((prepareOptions options).CachePrefix ++ extractId ctx.Req.RequestURI)).2, r)
       | none =>
         if ctx.renderRegistered = true then
           (Outcome.ret (),
            { ctx with resp := ctx.resp ++
                [RespOp.status 404, RespOp.write (lit "captcha not found")] },
            (s.Get ((prepareOptions options).CachePrefix
              ++ extractId ctx.Req.RequestURI)).2, r)
         else
           (Outcome.panic "middleware render hasn't been registered", ctx,
            (s.Get ((prepareOptions options).CachePrefix
              ++ extractId ctx.Req.RequestURI)).2, r)) := by
  have h0 : ¬ ((([] : GoString).length) > 0) := by decide
  simp only [Captchaer, NewCaptcha, hp, if_true, key, hre, h0, if_false, Store.Get]
  cases assertBytes (Option.map Entry.val
      (s.data ((prepareOptions options).CachePrefix ++ extractId ctx.Req.RequestURI))) with
  | some v => rfl
  | none =>
    dsimp only
    by_cases hr : ctx.renderRegistered = true
    · simp [Context.Status, Context.Write, hr]
    · simp [Context.Status, hr]

/-- The handler on a request under the URL prefix with a reload value, when
`ChallengeNums` is not negative. -/
theorem Captchaer_reload (img : Imaging) (options : List Options) (ctx : Context)
    (s : Store) (r : Rand)
    (hp : HasPrefix ctx.Req.RequestURI (prepareOptions options).URLPrefix = true)
    (hre : ctx.Req.reload ≠ []) (hN : 0 ≤ (prepareOptions options).ChallengeNums) :
    Captchaer img options ctx s r =
      (match (s.Put ((prepareOptions options).CachePrefix ++ extractId ctx.Req.RequestURI)
          (Value.bytes (randBytes (prepareOptions options).ChallengeNums.toNat defaultChars r))
          (prepareOptions options).Expiration).1 with
       | some _ =>
         ((if ctx.renderRegistered = true then Outcome.panic "fail to reload captcha"
           else Outcome.panic "middleware render hasn't been registered"),
          (if ctx.renderRegistered = true then
            { ctx with resp := ctx.resp ++
                [RespOp.status 500, RespOp.write (lit "captcha reload error")] }
           else ctx),
          (s.Put ((prepareOptions options).CachePrefix ++ extractId ctx.Req.RequestURI)
            (Value.bytes
              (randBytes (prepareOptions options).ChallengeNums.toNat defaultChars r))
            (prepareOptions options).Expiration).2,
          { r with pos := r.pos + (prepareOptions options).ChallengeNums.toNat })
       | none =>
         ((writeCaptcha img (NewCaptcha img (prepareOptions options))
            (randBytes (prepareOptions options).ChallengeNums.toNat defaultChars r) ctx).1,
          (writeCaptcha img (NewCaptcha img (prepareOptions options))
            (randBytes (prepareOptions options).ChallengeNums.toNat defaultChars r) ctx).2,
          (s.Put ((prepareOptions options).CachePrefix ++ extractId ctx.Req.RequestURI)
            (Value.bytes
              (randBytes (prepareOptions options).ChallengeNums.toNat defaultChars r))
            (prepareOptions options).Expiration).2,
          { r with pos := r.pos + (prepareOptions options).ChallengeNums.toNat })) := by
  have hlen : ctx.Req.reload.length > 0 := List.length_pos.mpr hre
  have h1 : ¬ (prepareOptions options).ChallengeNums < 0 := not_lt.mpr hN
  have h2 : ¬ (defaultChars.length = 0) := by decide
  simp only [Captchaer, NewCaptcha, hp, if_true, key, hlen, genRandChars, RandomCreateBytes,
    h1, if_false, h2]
  cases hput : s.Put ((prepareOptions options).CachePrefix ++ extractId ctx.Req.RequestURI)
      (Value.bytes (randBytes (prepareOptions options).ChallengeNums.toNat defaultChars r))
      (prepareOptions options).Expiration with
  | mk e s1 =>
    cases e with
    | none => rfl
    | some e1 =>
      dsimp only
      by_cases hr : ctx.renderRegistered = true
      · simp [Context.Status, Context.Write, hr]
      · simp [Context.Status, hr]

/-- The handler on a request under the URL prefix with a reload value, when
`ChallengeNums` is negative: the generation of digits panics, nothing else
happens. -/
theorem Captchaer_reload_neg (img : Imaging) (options : List Options) (ctx : Context)
    (s : Store) (r : Rand)
    (hp : HasPrefix ctx.Req.RequestURI (prepareOptions options).URLPrefix = true)
    (hre : ctx.Req.reload ≠ []) (hN : (prepareOptions options).ChallengeNums < 0) :
    Captchaer img options ctx s r
      = (Outcome.panic "makeslice: len out of range", ctx, s, r) := by
  have hlen : ctx.Req.reload.length > 0 := List.length_pos.mpr hre
  simp only [Captchaer, NewCaptcha, hp, if_true, key, hlen, genRandChars, RandomCreateBytes,
    hN]

/-- The result of `Verify` depends on the content of the cache only. -/
theorem Verify_congr (c : Captcha) (id a : GoString) (s1 s2 : Store)
    (h : s1.data = s2.data) : (Verify c id a s1).1 = (Verify c id a s2).1 := by
  unfold Verify
  by_cases hg : a.length = 0 ∨ id.length = 0
  · rw [if_pos hg, if_pos hg]
  · rw [if_neg hg, if_neg hg]
    simp only [Store.Get, h]
    cases assertBytes (Option.map Entry.val (s2.data (key c id))) with
    | none => rfl
    | some v =>
      dsimp only
      split_ifs <;> rfl

/-- Plain fetches of a URI whose id is live: each hands the stored challenge to
the renderer, and the content of the cache stays as it was. -/
theorem plainFetches_spec (img : Imaging) (options : List Options) (uri v : GoString)
    (hp : HasPrefix uri (prepareOptions options).URLPrefix = true) :
    ∀ (n : Nat) (s : Store) (r : Rand),
      (∃ t, s.data ((prepareOptions options).CachePrefix ++ extractId uri)
        = some ⟨Value.bytes v, t⟩) →
      (plainFetches img options uri n s r).1 = List.replicate n [v] ∧
      (plainFetches img options uri n s r).2.1.data = s.data := by
  intro n
  induction n with
  | zero =>
    intro s r _
    exact ⟨rfl, rfl⟩
  | succ n ih =>
    intro s r hget
    have hv := (assertBytes_eq_some_iff _ v).mpr hget
    have hf := Captchaer_fetch img options (freshContext uri []) s r hp rfl
    simp only [show (freshContext uri []).Req.RequestURI = uri from rfl] at hf
    rw [hv] at hf
    simp only [plainFetches, hf, writeCaptcha_ctx]
    have hdata : (s.Get ((prepareOptions options).CachePrefix ++ extractId uri)).2.data
        = s.data := rfl
    obtain ⟨h1, h2⟩ := ih (s.Get ((prepareOptions options).CachePrefix ++ extractId uri)).2 r
      (by rw [hdata]; exact hget)
    refine ⟨?_, ?_⟩
    · rw [h1]
      rfl
    · rw [h2, hdata]

/-! ## Fetch and reload -/

/-- C11, as it fails: in a handler chain without the Renderer middleware, the
request `/captcha/qq.png` is under the URL prefix, has no reload value and the
cache holds nothing under `captcha_qq`; yet the handler sends no status 404: it
panics in `ctx.Status(404)` and the response is left empty. -/
theorem Captchaer_not_found_counterexample :
    (prepareOptions []).URLPrefix
      <+: (bareContext (lit "/captcha/qq.png") []).Req.RequestURI ∧
    (bareContext (lit "/captcha/qq.png") []).Req.reload = [] ∧
    extractId (lit "/captcha/qq.png") = lit "qq" ∧
    sampleStore.data ((prepareOptions []).CachePrefix ++ lit "qq") = none ∧
    (Captchaer sampleImaging [] (bareContext (lit "/captcha/qq.png") [])
        sampleStore sampleRand).1
      = Outcome.panic "middleware render hasn't been registered" ∧
    (Captchaer sampleImaging [] (bareContext (lit "/captcha/qq.png") [])
        sampleStore sampleRand).2.1.resp = [] := by
  decide

/-- C11, amended: for a request under the URL prefix in a handler chain with the
Renderer middleware registered, the handler sends the status 404 exactly when
the request has no reload value and the cache holds no byte sequence under
`CachePrefix` + the extracted id; then it sends 404 and `captcha not found` and
returns, hands nothing to the renderer, and leaves the cache as it was, having
made one `Get` only. -/
theorem Captchaer_not_found_iff (img : Imaging) (options : List Options) (ctx : Context)
    (s : Store) (r : Rand)
    (hp : (prepareOptions options).URLPrefix <+: ctx.Req.RequestURI)
    (hrender : ctx.renderRegistered = true) :
    ∃ ops, (Captchaer img options ctx s r).2.1.resp = ctx.resp ++ ops ∧
      (RespOp.status 404 ∈ ops ↔
        (ctx.Req.reload = [] ∧ ∀ (v : List Byte) (t : Int),
          s.data ((prepareOptions options).CachePrefix ++ extractId ctx.Req.RequestURI)
            ≠ some ⟨Value.bytes v, t⟩)) ∧
      (RespOp.status 404 ∈ ops →
        ops = [RespOp.status 404, RespOp.write (lit "captcha not found")] ∧
        (Captchaer img options ctx s r).1 = Outcome.ret () ∧
        (Captchaer img options ctx s r).2.1.rendered = ctx.rendered ∧
        (Captchaer img options ctx s r).2.2.1.data = s.data ∧
        (Captchaer img options ctx s r).2.2.1.putErrs = s.putErrs ∧
        (Captchaer img options ctx s r).2.2.1.trace = s.trace ++
          [StoreOp.get ((prepareOptions options).CachePrefix
            ++ extractId ctx.Req.RequestURI)]) := by
  have hpre : HasPrefix ctx.Req.RequestURI (prepareOptions options).URLPrefix = true := by
    obtain ⟨x, hx⟩ := hp
    exact (HasPrefix_iff _ _).mpr ⟨x, hx.symm⟩
  by_cases hre : ctx.Req.reload = []
  · rw [Captchaer_fetch img options ctx s r hpre hre]
    cases hv : assertBytes ((s.data ((prepareOptions options).CachePrefix
        ++ extractId ctx.Req.RequestURI)).map Entry.val) with
    | none =>
      have hno := (assertBytes_eq_none_iff _).mp hv
      dsimp only
      rw [if_pos hrender]
      refine ⟨[RespOp.status 404, RespOp.write (lit "captcha not found")], rfl, ?_, ?_⟩
      · simp only [List.mem_cons, true_or, true_iff]
        exact ⟨hre, hno⟩
      · intro _
        exact ⟨rfl, rfl, rfl, rfl, rfl, rfl⟩
    | some v =>
      obtain ⟨t, ht⟩ := (assertBytes_eq_some_iff _ v).mp hv
      refine ⟨[RespOp.write (img.writeImage v (NewCaptcha img (prepareOptions options)).StdWidth
        (NewCaptcha img (prepareOptions options)).StdHeight).1], ?_, ?_, ?_⟩
      · simp only [writeCaptcha_ctx]
      · constructor
        · intro h
          simp at h
        · rintro ⟨_, hno⟩
          exact absurd ht (hno v t)
      · intro h
        simp at h
  · by_cases hN : 0 ≤ (prepareOptions options).ChallengeNums
    · rw [Captchaer_reload img options ctx s r hpre hre hN]
      cases hput : (s.Put ((prepareOptions options).CachePrefix
          ++ extractId ctx.Req.RequestURI)
          (Value.bytes (randBytes (prepareOptions options).ChallengeNums.toNat defaultChars r))
          (prepareOptions options).Expiration).1 with
      | some e =>
        dsimp only
        rw [if_pos hrender, if_pos hrender]
        refine ⟨[RespOp.status 500, RespOp.write (lit "captcha reload error")], rfl, ?_, ?_⟩
        · simp [hre]
        · intro h
          simp at h
      | none =>
        refine ⟨[RespOp.write (img.writeImage
          (randBytes (prepareOptions options).ChallengeNums.toNat defaultChars r)
          (NewCaptcha img (prepareOptions options)).StdWidth
          (NewCaptcha img (prepareOptions options)).StdHeight).1], ?_, ?_, ?_⟩
        · simp only [writeCaptcha_ctx]
        · simp [hre]
        · intro h
          simp at h
    · rw [Captchaer_reload_neg img options ctx s r hpre hre (not_le.mp hN)]
      refine ⟨[], by simp, by simp [hre], ?_⟩
      intro h
      simp at h

theorem Captchaer_not_found_iff_witness :
    ∃ ops, (Captchaer sampleImaging [] (freshContext (lit "/captcha/qq.png") [])
        sampleStore sampleRand).2.1.resp
          = (freshContext (lit "/captcha/qq.png") []).resp ++ ops ∧
      (RespOp.status 404 ∈ ops ↔
        ((freshContext (lit "/captcha/qq.png") []).Req.reload = [] ∧
          ∀ (v : List Byte) (t : Int),
            sampleStore.data ((prepareOptions []).CachePrefix
              ++ extractId (freshContext (lit "/captcha/qq.png") []).Req.RequestURI)
              ≠ some ⟨Value.bytes v, t⟩)) ∧
      (RespOp.status 404 ∈ ops →
        ops = [RespOp.status 404, RespOp.write (lit "captcha not found")] ∧
        (Captchaer sampleImaging [] (freshContext (lit "/captcha/qq.png") [])
          sampleStore sampleRand).1 = Outcome.ret () ∧
        (Captchaer sampleImaging [] (freshContext (lit "/captcha/qq.png") [])
          sampleStore sampleRand).2.1.rendered
            = (freshContext (lit "/captcha/qq.png") []).rendered ∧
        (Captchaer sampleImaging [] (freshContext (lit "/captcha/qq.png") [])
          sampleStore sampleRand).2.2.1.data = sampleStore.data ∧
        (Captchaer sampleImaging [] (freshContext (lit "/captcha/qq.png") [])
          sampleStore sampleRand).2.2.1.putErrs = sampleStore.putErrs ∧
        (Captchaer sampleImaging [] (freshContext (lit "/captcha/qq.png") [])
          sampleStore sampleRand).2.2.1.trace = sampleStore.trace ++
          [StoreOp.get ((prepareOptions []).CachePrefix
            ++ extractId (freshContext (lit "/captcha/qq.png") []).Req.RequestURI)]) :=
  Captchaer_not_found_iff sampleImaging [] (freshContext (lit "/captcha/qq.png") [])
    sampleStore sampleRand (by decide) (by decide)

/-- C12: a request under the URL prefix without a reload value, for an id under
which the cache holds a challenge, leaves the cache as it was (one `Get` is the
only call) and hands the stored challenge to the renderer; any number of such
fetches in a row hand the same challenge to the renderer each time and leave the
content of the cache as it was, so every `Verify` after them returns what it
would have returned before them, and for a non-empty id and challenge the
`Verify` of the challenge's decimal string returns true. -/
theorem plain_fetch_keeps (img : Imaging) (options : List Options) (ctx : Context)
    (s : Store) (r : Rand) (v : List Byte) (t : Int)
    (hp : (prepareOptions options).URLPrefix <+: ctx.Req.RequestURI)
    (hre : ctx.Req.reload = [])
    (hget : s.data ((prepareOptions options).CachePrefix ++ extractId ctx.Req.RequestURI)
      = some ⟨Value.bytes v, t⟩) :
    (Captchaer img options ctx s r).2.2.1.data = s.data ∧
    (Captchaer img options ctx s r).2.2.1.putErrs = s.putErrs ∧
    (Captchaer img options ctx s r).2.2.1.trace = s.trace ++
      [StoreOp.get ((prepareOptions options).CachePrefix ++ extractId ctx.Req.RequestURI)] ∧
    (Captchaer img options ctx s r).2.1.rendered = ctx.rendered ++ [v] ∧
    ∀ n : Nat,
      (plainFetches img options ctx.Req.RequestURI n s r).1 = List.replicate n [v] ∧
      (plainFetches img options ctx.Req.RequestURI n s r).2.1.data = s.data ∧
      (∀ a : GoString,
        (Verify (NewCaptcha img (prepareOptions options)) (extractId ctx.Req.RequestURI) a
          (plainFetches img options ctx.Req.RequestURI n s r).2.1).1
        = (Verify (NewCaptcha img (prepareOptions options)) (extractId ctx.Req.RequestURI) a
            s).1) ∧
      (extractId ctx.Req.RequestURI ≠ [] → v ≠ [] →
        (Verify (NewCaptcha img (prepareOptions options)) (extractId ctx.Req.RequestURI)
          (decimalString v) (plainFetches img options ctx.Req.RequestURI n s r).2.1).1
        = Outcome.ret true) := by
  have hpre : HasPrefix ctx.Req.RequestURI (prepareOptions options).URLPrefix = true := by
    obtain ⟨x, hx⟩ := hp
    exact (HasPrefix_iff _ _).mpr ⟨x, hx.symm⟩
  have hv := (assertBytes_eq_some_iff _ v).mpr ⟨t, hget⟩
  have hf := Captchaer_fetch img options ctx s r hpre hre
  rw [hv] at hf
  refine ⟨by rw [hf]; rfl, by rw [hf]; rfl, by rw [hf]; rfl, ?_, ?_⟩
  · rw [hf]
    simp only [writeCaptcha_ctx]
  · intro n
    obtain ⟨h1, h2⟩ := plainFetches_spec img options ctx.Req.RequestURI v hpre n s r ⟨t, hget⟩
    refine ⟨h1, h2, fun a => Verify_congr _ _ a _ _ h2, ?_⟩
    intro hid hne
    rw [Verify_decimalString (NewCaptcha img (prepareOptions options)) _
      (extractId ctx.Req.RequestURI) v t hid hne (by rw [h2]; exact hget)]

theorem plain_fetch_keeps_witness :
    (plainFetches sampleImaging [] (lit "/captcha/ab.png") 3 sampleStore sampleRand).1
      = List.replicate 3 [[3, 1]] ∧
    (Verify (NewCaptcha sampleImaging (prepareOptions [])) (lit "ab") (decimalString [3, 1])
      (plainFetches sampleImaging [] (lit "/captcha/ab.png") 3 sampleStore sampleRand).2.1).1
      = Outcome.ret true :=
  have h := (plain_fetch_keeps sampleImaging [] (freshContext (lit "/captcha/ab.png") [])
    sampleStore sampleRand [3, 1] 600 (by decide) (by decide) (by decide)).2.2.2.2 3
  ⟨h.1, h.2.2.2 (by decide) (by decide)⟩

/-- C13, as it fails: in a handler chain without the Renderer middleware, the
reload request `/captcha/ab.png?reload=1` on a cache whose `Put` fails calls
`Put`, which fails; yet the response gets no status 500: the handler panics in
`ctx.Status(500)` and the response is left empty. -/
theorem reload_replaces_counterexample :
    (prepareOptions []).URLPrefix
      <+: (bareContext (lit "/captcha/ab.png?reload=1") (lit "1")).Req.RequestURI ∧
    (bareContext (lit "/captcha/ab.png?reload=1") (lit "1")).Req.reload ≠ [] ∧
    (Captchaer sampleImaging [] (bareContext (lit "/captcha/ab.png?reload=1") (lit "1"))
        failingStore sampleRand).2.2.1.trace
      = failingStore.trace
        ++ [StoreOp.put (lit "captcha_ab") (Value.bytes [3, 0, 7, 4, 1, 8]) 600] ∧
    failingStore.putErrs.head?.join = some ⟨1⟩ ∧
    (Captchaer sampleImaging [] (bareContext (lit "/captcha/ab.png?reload=1") (lit "1"))
        failingStore sampleRand).1
      = Outcome.panic "middleware render hasn't been registered" ∧
    (Captchaer sampleImaging [] (bareContext (lit "/captcha/ab.png?reload=1") (lit "1"))
        failingStore sampleRand).2.1.resp = [] := by
  decide

/-- C13, amended: for a request under the URL prefix with a non-empty reload
value on which the handler calls `Put`: when that `Put` succeeds, the entry
under `CachePrefix` + the extracted id is afterwards exactly the digits just
drawn from the random source (`ChallengeNums` of them, each from 0 to 9) with
the timeout `Expiration`, the renderer is handed those same digits, and the
entry under every other key is as before; when it fails, nothing is handed to
the renderer and the handler panics, and in a handler chain with the Renderer
middleware registered the response gets the status 500 before that. -/
theorem reload_replaces (img : Imaging) (options : List Options) (ctx : Context)
    (s : Store) (r : Rand)
    (hp : (prepareOptions options).URLPrefix <+: ctx.Req.RequestURI)
    (hre : ctx.Req.reload ≠ [])
    (hput : ∃ k v t, (Captchaer img options ctx s r).2.2.1.trace
      = s.trace ++ [StoreOp.put k v t]) :
    (s.putErrs.head?.join = none →
      (Captchaer img options ctx s r).2.2.1.data
          ((prepareOptions options).CachePrefix ++ extractId ctx.Req.RequestURI)
        = some ⟨Value.bytes
            (randBytes (prepareOptions options).ChallengeNums.toNat defaultChars r),
            (prepareOptions options).Expiration⟩ ∧
      ((randBytes (prepareOptions options).ChallengeNums.toNat defaultChars r).length : Int)
        = (prepareOptions options).ChallengeNums ∧
      (∀ b ∈ randBytes (prepareOptions options).ChallengeNums.toNat defaultChars r,
        b.val ≤ 9) ∧
      (Captchaer img options ctx s r).2.1.rendered = ctx.rendered ++
        [randBytes (prepareOptions options).ChallengeNums.toNat defaultChars r] ∧
      (∀ k, k ≠ (prepareOptions options).CachePrefix ++ extractId ctx.Req.RequestURI →
        (Captchaer img options ctx s r).2.2.1.data k = s.data k)) ∧
    (∀ e, s.putErrs.head?.join = some e →
      (Captchaer img options ctx s r).2.1.rendered = ctx.rendered ∧
      (∃ m, (Captchaer img options ctx s r).1 = Outcome.panic m) ∧
      (ctx.renderRegistered = true →
        (Captchaer img options ctx s r).2.1.resp = ctx.resp ++
          [RespOp.status 500, RespOp.write (lit "captcha reload error")] ∧
        (Captchaer img options ctx s r).1 = Outcome.panic "fail to reload captcha")) := by
  have hpre : HasPrefix ctx.Req.RequestURI (prepareOptions options).URLPrefix = true := by
    obtain ⟨x, hx⟩ := hp
    exact (HasPrefix_iff _ _).mpr ⟨x, hx.symm⟩
  have hN : 0 ≤ (prepareOptions options).ChallengeNums := by
    by_contra hneg
    obtain ⟨k, v, t, htr⟩ := hput
    rw [Captchaer_reload_neg img options ctx s r hpre hre (not_le.mp hneg)] at htr
    simp at htr
  have hr := Captchaer_reload img options ctx s r hpre hre hN
  have herr := Store.Put_err s
    ((prepareOptions options).CachePrefix ++ extractId ctx.Req.RequestURI)
    (Value.bytes (randBytes (prepareOptions options).ChallengeNums.toNat defaultChars r))
    (prepareOptions options).Expiration
  constructor
  · intro hok
    rw [← herr] at hok
    have hdata := Store.Put_data_ok s _ _ _ hok
    rw [hok] at hr
    refine ⟨?_, ?_, ?_, ?_, ?_⟩
    · rw [hr]
      simp only [hdata, if_true]
    · rw [randBytes_length]
      omega
    · intro b hb
      exact defaultChars_le b (randBytes_mem _ _ _ (by decide) b hb)
    · rw [hr]
      simp only [writeCaptcha_ctx]
    · intro k hk
      rw [hr]
      simp only [hdata, hk, if_false]
  · intro e he
    rw [← herr] at he
    rw [he] at hr
    rw [hr]
    dsimp only
    refine ⟨?_, ?_, ?_⟩
    · split_ifs <;> rfl
    · split_ifs
      · exact ⟨_, rfl⟩
      · exact ⟨_, rfl⟩
    · intro hrender
      rw [if_pos hrender, if_pos hrender]
      exact ⟨rfl, rfl⟩

theorem reload_replaces_witness :
    (Captchaer sampleImaging [] (freshContext (lit "/captcha/ab.png?reload=1") (lit "1"))
        sampleStore sampleRand).2.2.1.data (lit "captcha_ab")
      = some ⟨Value.bytes [3, 0, 7, 4, 1, 8], 600⟩ ∧
    (Captchaer sampleImaging [] (freshContext (lit "/captcha/ab.png?reload=1") (lit "1"))
        failingStore sampleRand).2.1.resp
      = [RespOp.status 500, RespOp.write (lit "captcha reload error")] :=
  ⟨((reload_replaces sampleImaging []
      (freshContext (lit "/captcha/ab.png?reload=1") (lit "1")) sampleStore sampleRand
      (by decide) (by decide)
      ⟨lit "captcha_ab", Value.bytes [3, 0, 7, 4, 1, 8], 600, by decide⟩).1 (by decide)).1,
   (((reload_replaces sampleImaging []
      (freshContext (lit "/captcha/ab.png?reload=1") (lit "1")) failingStore sampleRand
      (by decide) (by decide)
      ⟨lit "captcha_ab", Value.bytes [3, 0, 7, 4, 1, 8], 600, by decide⟩).2 ⟨1⟩
        (by decide)).2.2 (by decide)).1⟩

/-- C14, as it fails: the cache holds `3 0 7 4 1 8` under the id `abc`, so
`307418` verifies; the reload of `abc` succeeds and the random source yields
`3 0 7 4 1 8` again; after it `Verify` of `abc` with `307418` returns true. -/
theorem reload_invalidates_old_counterexample :
    (Verify sampleCaptcha (lit "abc") (lit "307418") repeatStore).1 = Outcome.ret true ∧
    (Captchaer sampleImaging [] (freshContext (lit "/captcha/abc.png?reload=1") (lit "1"))
        repeatStore sampleRand).2.2.1.trace
      = [StoreOp.put (lit "captcha_abc") (Value.bytes [3, 0, 7, 4, 1, 8]) 600] ∧
    (Captchaer sampleImaging [] (freshContext (lit "/captcha/abc.png?reload=1") (lit "1"))
        repeatStore sampleRand).1 = Outcome.ret () ∧
    (Verify sampleCaptcha (lit "abc") (lit "307418")
      (Captchaer sampleImaging [] (freshContext (lit "/captcha/abc.png?reload=1") (lit "1"))
        repeatStore sampleRand).2.2.1).1 = Outcome.ret true := by
  decide

/-- C14, amended: after a reload whose `Put` succeeds, `Verify` of the reloaded
id with the decimal string of a challenge `d` returns false for every challenge
`d`, in particular the one stored before the reload, that differs from the
digits the random source has just yielded. -/
theorem reload_invalidates_old (img : Imaging) (options : List Options) (ctx : Context)
    (s : Store) (r : Rand) (d : List Byte)
    (hp : (prepareOptions options).URLPrefix <+: ctx.Req.RequestURI)
    (hre : ctx.Req.reload ≠ [])
    (hput : ∃ k v t, (Captchaer img options ctx s r).2.2.1.trace
      = s.trace ++ [StoreOp.put k v t])
    (hok : s.putErrs.head?.join = none)
    (hd : d ≠ randBytes (prepareOptions options).ChallengeNums.toNat defaultChars r) :
    (Verify (NewCaptcha img (prepareOptions options)) (extractId ctx.Req.RequestURI)
      (decimalString d) (Captchaer img options ctx s r).2.2.1).1 = Outcome.ret false := by
  have hpre : HasPrefix ctx.Req.RequestURI (prepareOptions options).URLPrefix = true := by
    obtain ⟨x, hx⟩ := hp
    exact (HasPrefix_iff _ _).mpr ⟨x, hx.symm⟩
  have hN : 0 ≤ (prepareOptions options).ChallengeNums := by
    by_contra hneg
    obtain ⟨k, v, t, htr⟩ := hput
    rw [Captchaer_reload_neg img options ctx s r hpre hre (not_le.mp hneg)] at htr
    simp at htr
  have hr := Captchaer_reload img options ctx s r hpre hre hN
  have herr := Store.Put_err s
    ((prepareOptions options).CachePrefix ++ extractId ctx.Req.RequestURI)
    (Value.bytes (randBytes (prepareOptions options).ChallengeNums.toNat defaultChars r))
    (prepareOptions options).Expiration
  rw [← herr] at hok
  have hdata := Store.Put_data_ok s _ _ _ hok
  rw [hok] at hr
  have hget : (Captchaer img options ctx s r).2.2.1.data
      (key (NewCaptcha img (prepareOptions options)) (extractId ctx.Req.RequestURI))
      = some ⟨Value.bytes
          (randBytes (prepareOptions options).ChallengeNums.toNat defaultChars r),
          (prepareOptions options).Expiration⟩ := by
    rw [hr]
    simp only [hdata, key, NewCaptcha, if_true]
  by_cases hid : extractId ctx.Req.RequestURI = []
  · rw [Verify_empty _ _ _ _ (Or.inl hid)]
  by_cases hans : decimalString d = []
  · rw [Verify_empty _ _ _ _ (Or.inr hans)]
  by_cases hlen : (randBytes (prepareOptions options).ChallengeNums.toNat defaultChars r).length
      = (decimalString d).length
  · rw [Verify_hit _ _ _ _ _ _ hid hans hget hlen, digitOf_decimalString]
    simp [Ne.symm hd]
  · rw [Verify_miss _ _ _ _ hid hans]
    intro v hv
    rw [hget] at hv
    simp only [Option.map_some', assertBytes, Option.some.injEq] at hv
    rw [← hv]
    exact hlen

theorem reload_invalidates_old_witness :
    (Verify (NewCaptcha sampleImaging (prepareOptions []))
      (extractId (freshContext (lit "/captcha/ab.png?reload=1") (lit "1")).Req.RequestURI)
      (decimalString [3, 1])
      (Captchaer sampleImaging [] (freshContext (lit "/captcha/ab.png?reload=1") (lit "1"))
        sampleStore sampleRand).2.2.1).1 = Outcome.ret false :=
  reload_invalidates_old sampleImaging []
    (freshContext (lit "/captcha/ab.png?reload=1") (lit "1")) sampleStore sampleRand [3, 1]
    (by decide) (by decide)
    ⟨lit "captcha_ab", Value.bytes [3, 0, 7, 4, 1, 8], 600, by decide⟩ (by decide) (by decide)

/-! ## Options -/

theorem setURLPrefix_eq (o : Options) :
    setURLPrefix o = { o with URLPrefix :=
      if o.URLPrefix.length = 0 then lit "/captcha/"
      else if o.URLPrefix.get? (o.URLPrefix.length - 1) ≠ some 47 then o.URLPrefix ++ lit "/"
      else o.URLPrefix } := by
  unfold setURLPrefix
  split_ifs <;> rfl

theorem setFieldIdName_eq (o : Options) :
    setFieldIdName o = { o with FieldIdName :=
      if o.FieldIdName.length = 0 then lit "captcha_id" else o.FieldIdName } := by
  unfold setFieldIdName
  split_ifs <;> rfl

theorem setFieldCaptchaName_eq (o : Options) :
    setFieldCaptchaName o = { o with FieldCaptchaName :=
      if o.FieldCaptchaName.length = 0 then lit "captcha" else o.FieldCaptchaName } := by
  unfold setFieldCaptchaName
  split_ifs <;> rfl

theorem setChallengeNums_eq (o : Options) :
    setChallengeNums o = { o with ChallengeNums :=
      if o.ChallengeNums = 0 then 6 else o.ChallengeNums } := by
  unfold setChallengeNums
  split_ifs <;> rfl

theorem setExpiration_eq (o : Options) :
    setExpiration o = { o with Expiration :=
      if o.Expiration = 0 then 600 else o.Expiration } := by
  unfold setExpiration
  split_ifs <;> rfl

theorem setCachePrefix_eq (o : Options) :
    setCachePrefix o = { o with CachePrefix :=
      if o.CachePrefix.length = 0 then lit "captcha_" else o.CachePrefix } := by
  unfold setCachePrefix
  split_ifs <;> rfl

/-- The record `prepareOptions` returns, field by field. -/
theorem prepareOptions_eq (options : List Options) :
    prepareOptions options =
      { URLPrefix :=
          if (options.headD Options.zero).URLPrefix.length = 0 then lit "/captcha/"
          else if (options.headD Options.zero).URLPrefix.get?
              ((options.headD Options.zero).URLPrefix.length - 1) ≠ some 47 then
            (options.headD Options.zero).URLPrefix ++ lit "/"
          else (options.headD Options.zero).URLPrefix
        FieldIdName :=
          if (options.headD Options.zero).FieldIdName.length = 0 then lit "captcha_id"
          else (options.headD Options.zero).FieldIdName
        FieldCaptchaName :=
          if (options.headD Options.zero).FieldCaptchaName.length = 0 then lit "captcha"
          else (options.headD Options.zero).FieldCaptchaName
        ChallengeNums :=
          if (options.headD Options.zero).ChallengeNums = 0 then 6
          else (options.headD Options.zero).ChallengeNums
        Expiration :=
          if (options.headD Options.zero).Expiration = 0 then 600
          else (options.headD Options.zero).Expiration
        CachePrefix :=
          if (options.headD Options.zero).CachePrefix.length = 0 then lit "captcha_"
          else (options.headD Options.zero).CachePrefix } := by
  have h : ∀ o : Options, setCachePrefix (setExpiration (setChallengeNums
      (setFieldCaptchaName (setFieldIdName (setURLPrefix o))))) =
      { URLPrefix :=
          if o.URLPrefix.length = 0 then lit "/captcha/"
          else if o.URLPrefix.get? (o.URLPrefix.length - 1) ≠ some 47 then
            o.URLPrefix ++ lit "/"
          else o.URLPrefix
        FieldIdName := if o.FieldIdName.length = 0 then lit "captcha_id" else o.FieldIdName
        FieldCaptchaName :=
          if o.FieldCaptchaName.length = 0 then lit "captcha" else o.FieldCaptchaName
        ChallengeNums := if o.ChallengeNums = 0 then 6 else o.ChallengeNums
        Expiration := if o.Expiration = 0 then 600 else o.Expiration
        CachePrefix := if o.CachePrefix.length = 0 then lit "captcha_" else o.CachePrefix } := by
    intro o
    rw [setCachePrefix_eq, setExpiration_eq, setChallengeNums_eq, setFieldCaptchaName_eq,
      setFieldIdName_eq, setURLPrefix_eq]
  cases options with
  | nil => exact h Options.zero
  | cons o rest => exact h o

/-- C15: for every list of options, `prepareOptions` returns the first element
(the zero value for the empty list) in which an empty `URLPrefix`,
`FieldIdName`, `FieldCaptchaName`, `CachePrefix` is replaced by `/captcha/`,
`captcha_id`, `captcha`, `captcha_`, a zero `ChallengeNums`, `Expiration` by 6,
600, every other field value is kept, except that a non-empty `URLPrefix` not
ending in `/` gets one `/` appended; the resulting `URLPrefix` ends with `/`. -/
theorem prepareOptions_defaults (options : List Options) :
    (prepareOptions options).URLPrefix =
      (if (options.headD Options.zero).URLPrefix = [] then lit "/captcha/"
       else if (options.headD Options.zero).URLPrefix.getLast? = some 47 then
         (options.headD Options.zero).URLPrefix
       else (options.headD Options.zero).URLPrefix ++ [47]) ∧
    (prepareOptions options).FieldIdName =
      (if (options.headD Options.zero).FieldIdName = [] then lit "captcha_id"
       else (options.headD Options.zero).FieldIdName) ∧
    (prepareOptions options).FieldCaptchaName =
      (if (options.headD Options.zero).FieldCaptchaName = [] then lit "captcha"
       else (options.headD Options.zero).FieldCaptchaName) ∧
    (prepareOptions options).ChallengeNums =
      (if (options.headD Options.zero).ChallengeNums = 0 then 6
       else (options.headD Options.zero).ChallengeNums) ∧
    (prepareOptions options).Expiration =
      (if (options.headD Options.zero).Expiration = 0 then 600
       else (options.headD Options.zero).Expiration) ∧
    (prepareOptions options).CachePrefix =
      (if (options.headD Options.zero).CachePrefix = [] then lit "captcha_"
       else (options.headD Options.zero).CachePrefix) ∧
    (prepareOptions options).URLPrefix.getLast? = some 47 := by
  rw [prepareOptions_eq]
  simp only [List.length_eq_zero, List.get?_eq_getElem?, ← List.getLast?_eq_getElem?]
  refine ⟨?_, trivial, trivial, trivial, trivial, trivial, ?_⟩
  · split_ifs <;> first | rfl | (exfalso; simp_all)
  · split_ifs with h1 h2
    · decide
    · rw [show lit "/" = [47] from rfl, List.getLast?_concat]
    · exact not_not.mp h2

/-! ## The markup and the rest of `Verify` -/

/-- What a `CreateCaptcha` without error leaves: the fresh digits under the key
of the returned id, put by the one call made on the cache. -/
theorem CreateCaptcha_ok (c : Captcha) (s : Store) (r : Rand) (id : GoString)
    (h : (CreateCaptcha c s r).1 = Outcome.ret (id, none)) :
    id = newId r ∧
    (CreateCaptcha c s r).2.1.data (c.CachePrefix ++ id)
      = some ⟨Value.bytes (newChars c r), c.Expiration⟩ ∧
    (CreateCaptcha c s r).2.1.trace
      = s.trace ++ [StoreOp.put (c.CachePrefix ++ id) (Value.bytes (newChars c r))
          c.Expiration] := by
  obtain ⟨_, herr, hid, hs⟩ := CreateCaptcha_ret c s r id none h
  simp only [if_true] at hid
  have hdata := Store.Put_data_ok s (key c (newId r)) (Value.bytes (newChars c r))
    c.Expiration herr.symm
  refine ⟨hid, ?_, ?_⟩
  · rw [hs, hdata, hid]
    simp [key]
  · rw [hs, Store.Put_trace, hid]
    rfl

/-- `CreateHtml` runs `CreateCaptcha` and leaves the cache it leaves. -/
theorem CreateHtml_store (c : Captcha) (s : Store) (r : Rand) :
    (CreateHtml c s r).2.1 = (CreateCaptcha c s r).2.1 := by
  unfold CreateHtml
  rcases hc : CreateCaptcha c s r with ⟨o, s1, r1⟩
  rcases o with ⟨id, _ | e⟩ | m <;> rfl

/-- The outcome of `CreateHtml` from the outcome of `CreateCaptcha`. -/
theorem CreateHtml_outcome (c : Captcha) (s : Store) (r : Rand) :
    (CreateHtml c s r).1 =
      (match (CreateCaptcha c s r).1 with
       | Outcome.panic m => Outcome.panic m
       | Outcome.ret (_, some _) => Outcome.panic "fail to create captcha"
       | Outcome.ret (value, none) => Outcome.ret (markup c.FieldIdName c.URLPrefix value)) := by
  unfold CreateHtml
  rcases hc : CreateCaptcha c s r with ⟨o, s1, r1⟩
  rcases o with ⟨id, _ | e⟩ | m <;> rfl

/-- C16: `CreateHtml` panics exactly when `CreateCaptcha` returns an error or
panics; when `CreateCaptcha` returns an id without error, `CreateHtml` returns
the markup written out below; and whenever it returns markup,
`CreateCaptcha` returned an id without error, exactly one call was made on the
cache, a `Put` that left a challenge live under `CachePrefix + id`, the markup
starts with `<input type="hidden" name="` FieldIdName `" value="` id `">`, and
it contains `src="` URLPrefix id `.png"`. -/
theorem CreateHtml_spec (c : Captcha) (s : Store) (r : Rand) :
    ((∃ m, (CreateHtml c s r).1 = Outcome.panic m) ↔
      ((∃ id e, (CreateCaptcha c s r).1 = Outcome.ret (id, some e)) ∨
        (∃ m, (CreateCaptcha c s r).1 = Outcome.panic m))) ∧
    (∀ id : GoString, (CreateCaptcha c s r).1 = Outcome.ret (id, none) →
      (CreateHtml c s r).1 = Outcome.ret
        (lit "<input type=" ++ [34] ++ lit "hidden" ++ [34] ++ lit " name=" ++ [34]
          ++ c.FieldIdName ++ [34] ++ lit " value=" ++ [34] ++ id ++ [34] ++ lit ">"
          ++ [10, 9] ++ lit "<a class=" ++ [34] ++ lit "captcha" ++ [34] ++ lit " href=" ++ [34]
          ++ lit "javascript:" ++ [34] ++ lit ">" ++ [10, 9, 9] ++ lit "<img onclick=" ++ [34]
          ++ lit "this.src=(" ++ [39] ++ c.URLPrefix ++ id ++ lit ".png?reload=" ++ [39]
          ++ lit "+(new Date()).getTime())" ++ [34] ++ lit " class=" ++ [34]
          ++ lit "captcha-img" ++ [34] ++ lit " src=" ++ [34] ++ c.URLPrefix ++ id
          ++ lit ".png" ++ [34] ++ lit ">" ++ [10, 9] ++ lit "</a>")) ∧
    (∀ html, (CreateHtml c s r).1 = Outcome.ret html →
      ∃ (id : GoString) (d : List Byte),
        (CreateCaptcha c s r).1 = Outcome.ret (id, none) ∧
        (CreateHtml c s r).2.1.trace
          = s.trace ++ [StoreOp.put (c.CachePrefix ++ id) (Value.bytes d) c.Expiration] ∧
        (CreateHtml c s r).2.1.data (c.CachePrefix ++ id)
          = some ⟨Value.bytes d, c.Expiration⟩ ∧
        (lit "<input type=" ++ [34] ++ lit "hidden" ++ [34] ++ lit " name=" ++ [34]
          ++ c.FieldIdName ++ [34] ++ lit " value=" ++ [34] ++ id ++ [34] ++ lit ">")
          <+: html ∧
        (lit "src=" ++ [34] ++ c.URLPrefix ++ id ++ lit ".png" ++ [34]) <:+: html) := by
  have hout := CreateHtml_outcome c s r
  have hst := CreateHtml_store c s r
  have hfull : ∀ id : GoString, markup c.FieldIdName c.URLPrefix id =
      lit "<input type=" ++ [34] ++ lit "hidden" ++ [34] ++ lit " name=" ++ [34]
        ++ c.FieldIdName ++ [34] ++ lit " value=" ++ [34] ++ id ++ [34] ++ lit ">"
        ++ [10, 9] ++ lit "<a class=" ++ [34] ++ lit "captcha" ++ [34] ++ lit " href=" ++ [34]
        ++ lit "javascript:" ++ [34] ++ lit ">" ++ [10, 9, 9] ++ lit "<img onclick=" ++ [34]
        ++ lit "this.src=(" ++ [39] ++ c.URLPrefix ++ id ++ lit ".png?reload=" ++ [39]
        ++ lit "+(new Date()).getTime())" ++ [34] ++ lit " class=" ++ [34]
        ++ lit "captcha-img" ++ [34] ++ lit " src=" ++ [34] ++ c.URLPrefix ++ id
        ++ lit ".png" ++ [34] ++ lit ">" ++ [10, 9] ++ lit "</a>" := by
    intro id
    simp only [markup, hiddenField, imgTag, srcAttr, imageURL, reloadURL, dquote, squote,
      List.append_assoc, List.append_nil]
    rfl
  refine ⟨?_, ?_, ?_⟩
  · rw [hout]
    rcases hc : (CreateCaptcha c s r).1 with ⟨id, _ | e⟩ | m
    · simp
    · simp
    · simp
  · intro id hc
    rw [hout, hc]
    exact congrArg Outcome.ret (hfull id)
  · intro html hhtml
    rw [hout] at hhtml
    rcases hc : (CreateCaptcha c s r).1 with ⟨id, _ | e⟩ | m
    · rw [hc] at hhtml
      simp only [Outcome.ret.injEq] at hhtml
      obtain ⟨_, hdata, htrace⟩ := CreateCaptcha_ok c s r id hc
      refine ⟨id, newChars c r, rfl, by rw [hst, htrace], by rw [hst, hdata], ?_, ?_⟩
      · rw [← hhtml, hfull id]
        refine ⟨[10, 9] ++ lit "<a class=" ++ [34] ++ lit "captcha" ++ [34] ++ lit " href="
          ++ [34] ++ lit "javascript:" ++ [34] ++ lit ">" ++ [10, 9, 9]
          ++ lit "<img onclick=" ++ [34] ++ lit "this.src=(" ++ [39] ++ c.URLPrefix ++ id
          ++ lit ".png?reload=" ++ [39] ++ lit "+(new Date()).getTime())" ++ [34]
          ++ lit " class=" ++ [34] ++ lit "captcha-img" ++ [34] ++ lit " src=" ++ [34]
          ++ c.URLPrefix ++ id ++ lit ".png" ++ [34] ++ lit ">" ++ [10, 9] ++ lit "</a>", ?_⟩
        simp only [List.append_assoc]
      · rw [← hhtml, hfull id]
        refine ⟨lit "<input type=" ++ [34] ++ lit "hidden" ++ [34] ++ lit " name=" ++ [34]
          ++ c.FieldIdName ++ [34] ++ lit " value=" ++ [34] ++ id ++ [34] ++ lit ">"
          ++ [10, 9] ++ lit "<a class=" ++ [34] ++ lit "captcha" ++ [34] ++ lit " href="
          ++ [34] ++ lit "javascript:" ++ [34] ++ lit ">" ++ [10, 9, 9]
          ++ lit "<img onclick=" ++ [34] ++ lit "this.src=(" ++ [39] ++ c.URLPrefix ++ id
          ++ lit ".png?reload=" ++ [39] ++ lit "+(new Date()).getTime())" ++ [34]
          ++ lit " class=" ++ [34] ++ lit "captcha-img" ++ [34] ++ lit " ",
          lit ">" ++ [10, 9] ++ lit "</a>", ?_⟩
        simp only [List.append_assoc]
        rfl
    · rw [hc] at hhtml
      exact Outcome.noConfusion hhtml
    · rw [hc] at hhtml
      exact Outcome.noConfusion hhtml

set_option maxRecDepth 100000 in
theorem CreateHtml_spec_witness :
    (CreateCaptcha sampleCaptcha sampleStore sampleRand).1
      = Outcome.ret (lit "3AHOVcjqx4BIPWd", none) ∧
    (CreateHtml sampleCaptcha sampleStore sampleRand).1 = Outcome.ret
      (lit "<input type=" ++ [34] ++ lit "hidden" ++ [34] ++ lit " name=" ++ [34]
        ++ lit "captcha_id" ++ [34] ++ lit " value=" ++ [34] ++ lit "3AHOVcjqx4BIPWd" ++ [34] ++ lit ">"
        ++ [10, 9] ++ lit "<a class=" ++ [34] ++ lit "captcha" ++ [34] ++ lit " href=" ++ [34]
        ++ lit "javascript:" ++ [34] ++ lit ">" ++ [10, 9, 9] ++ lit "<img onclick=" ++ [34]
        ++ lit "this.src=(" ++ [39] ++ lit "/captcha/" ++ lit "3AHOVcjqx4BIPWd" ++ lit ".png?reload=" ++ [39]
        ++ lit "+(new Date()).getTime())" ++ [34] ++ lit " class=" ++ [34]
        ++ lit "captcha-img" ++ [34] ++ lit " src=" ++ [34] ++ lit "/captcha/" ++ lit "3AHOVcjqx4BIPWd"
        ++ lit ".png" ++ [34] ++ lit ">" ++ [10, 9] ++ lit "</a>") :=
  ⟨by decide,
   (CreateHtml_spec sampleCaptcha sampleStore sampleRand).2.1 (lit "3AHOVcjqx4BIPWd")
     (by decide)⟩

/-- C17: for every cache, id and answer, `Verify` returns a boolean: it never
panics on `challenge[i]`, because the comparison loop runs only on a stored
byte sequence as long as the answer, on which it returns normally. -/
theorem Verify_total (c : Captcha) (s : Store) (id answer : GoString) :
    (∃ b : Bool, (Verify c id answer s).1 = Outcome.ret b) ∧
    (∀ v : List Byte, v.length = answer.length →
      ∃ b : Bool, verifyLoop answer v 0 = Outcome.ret b) := by
  constructor
  · by_cases hid : id = []
    · exact ⟨false, by rw [Verify_empty c s id answer (Or.inl hid)]⟩
    by_cases hans : answer = []
    · exact ⟨false, by rw [Verify_empty c s id answer (Or.inr hans)]⟩
    by_cases hhit : ∃ v t, s.data (key c id) = some ⟨Value.bytes v, t⟩ ∧
        v.length = answer.length
    · obtain ⟨v, t, hget, hlen⟩ := hhit
      exact ⟨decide (v = answer.map digitOf),
        by rw [Verify_hit c s id answer v t hid hans hget hlen]⟩
    · refine ⟨false, ?_⟩
      rw [Verify_miss c s id answer hid hans]
      intro v hv hlen
      obtain ⟨t, ht⟩ := (assertBytes_eq_some_iff _ v).mp hv
      exact hhit ⟨v, t, ht, hlen⟩
  · intro v hlen
    exact ⟨_, verifyLoop_eq answer v 0 (by simpa using hlen)⟩

/-- `Verify` on a live, non-empty challenge under a non-empty id: true exactly
on the decimal string of the challenge. -/
theorem Verify_live (c : Captcha) (s : Store) (id answer d : GoString) (t : Int)
    (hid : id ≠ []) (hd : d ≠ [])
    (hget : s.data (key c id) = some ⟨Value.bytes d, t⟩) :
    (Verify c id answer s).1 = Outcome.ret (decide (answer = decimalString d)) := by
  have hdl := decimalString_length d
  by_cases hans : answer = []
  · rw [Verify_empty c s id answer (Or.inr hans)]
    have : answer ≠ decimalString d := by
      intro h
      rw [← h, hans] at hdl
      exact hd (List.length_eq_zero.mp hdl.symm)
    simp [this]
  by_cases hlen : d.length = answer.length
  · rw [Verify_hit c s id answer d t hid hans hget hlen]
    have hiff : d = answer.map digitOf ↔ answer = decimalString d := by
      constructor
      · intro h
        rw [h, decimalString_digitOf]
      · intro h
        rw [h, digitOf_decimalString]
    simp only [hiff]
  · rw [Verify_miss c s id answer hid hans]
    · have : answer ≠ decimalString d := by
        intro h
        rw [← h] at hdl
        exact hlen hdl.symm
      simp [this]
    · intro v hv
      rw [hget] at hv
      simp only [Option.map_some', assertBytes, Option.some.injEq] at hv
      rw [← hv]
      exact hlen

/-- C18: when a non-empty challenge whose bytes are all from 0 to 9 is stored
under a non-empty id, `Verify` accepts exactly one answer, the one whose `i`-th
byte is 48 plus the `i`-th digit; an answer with a byte outside `'0'..'9'` is
rejected. -/
theorem accepted_answer_unique (c : Captcha) (s : Store) (id d : GoString) (t : Int)
    (hid : id ≠ []) (hd : d ≠ []) (hdig : ∀ b ∈ d, b.val ≤ 9)
    (hget : s.data (key c id) = some ⟨Value.bytes d, t⟩) :
    (∀ answer : GoString,
      (Verify c id answer s).1 = Outcome.ret true ↔ answer = decimalString d) ∧
    ((decimalString d).length = d.length ∧
      ∀ (i : Nat) (h1 : i < (decimalString d).length) (h2 : i < d.length),
        ((decimalString d)[i]).val = 48 + (d[i]).val) ∧
    (∀ answer : GoString, (∃ b ∈ answer, b.val < 48 ∨ 57 < b.val) →
      (Verify c id answer s).1 = Outcome.ret false) := by
  have hbyte : ∀ (i : Nat) (h1 : i < (decimalString d).length) (h2 : i < d.length),
      ((decimalString d)[i]).val = 48 + (d[i]).val := by
    intro i h1 h2
    have h9 := hdig d[i] (List.getElem_mem _)
    simp only [decimalString, List.getElem_map]
    show (d[i].val + 48) % 256 = 48 + d[i].val
    omega
  refine ⟨?_, ⟨decimalString_length d, hbyte⟩, ?_⟩
  · intro answer
    rw [Verify_live c s id answer d t hid hd hget]
    simp
  · rintro answer ⟨b, hb, hout⟩
    rw [Verify_live c s id answer d t hid hd hget]
    have hne : answer ≠ decimalString d := by
      intro h
      rw [h] at hb
      obtain ⟨i, hi, rfl⟩ := List.getElem_of_mem hb
      have hi2 : i < d.length := by rw [← decimalString_length d]; exact hi
      have := hbyte i hi hi2
      have h9 := hdig d[i] (List.getElem_mem _)
      omega
    simp [hne]

set_option maxRecDepth 8000 in
theorem accepted_answer_unique_witness :
    (Verify sampleCaptcha (lit "ab") (decimalString [3, 1]) sampleStore).1
      = Outcome.ret true ∧
    (Verify sampleCaptcha (lit "ab") (lit "3a") sampleStore).1 = Outcome.ret false :=
  have h := accepted_answer_unique sampleCaptcha sampleStore (lit "ab") [3, 1] 600
    (by decide) (by decide) (by decide) (by decide)
  ⟨(h.1 (decimalString [3, 1])).mpr rfl, h.2.2 (lit "3a") ⟨97, by decide, by decide⟩⟩

set_option maxRecDepth 8000 in
/-- No byte of the alphabet of ids is a slash or a dot. -/
theorem alphanum_safe : ∀ b ∈ alphanum, b ≠ (47 : Byte) ∧ b ≠ (46 : Byte) := by
  decide

/-- The id `CreateCaptcha` draws consists of bytes of `alphanum`. -/
theorem newId_alphanum (r : Rand) (b : Byte) (h : b ∈ newId r) : b ∈ alphanum :=
  randBytes_mem 15 alphanum r (by decide) b h

/-- C19: for every list of options and every alphanumeric id, empty or not, the
two URLs of the markup `CreateHtml` returns for that id, `URLPrefix + id + ".png"`
in the `src` attribute and `URLPrefix + id + ".png?reload="` followed by a
decimal timestamp built by the `onclick` script, start with `URLPrefix`, and the
handler extracts that same id from both; so every call the handler makes on the
cache for them is on the key of that id, the one `CreateCaptcha` puts the
challenge under.  Every id `CreateCaptcha` returns without error is non-empty
and alphanumeric. -/
theorem markup_urls_resolve (img : Imaging) (options : List Options) (id ts : GoString)
    (halnum : ∀ b ∈ id, b ∈ alphanum)
    (hts : ∀ b ∈ ts, 48 ≤ b.val ∧ b.val ≤ 57) :
    srcAttr (imageURL (NewCaptcha img (prepareOptions options)).URLPrefix id)
      <:+: markup (NewCaptcha img (prepareOptions options)).FieldIdName
        (NewCaptcha img (prepareOptions options)).URLPrefix id ∧
    reloadURL (NewCaptcha img (prepareOptions options)).URLPrefix id []
      <:+: markup (NewCaptcha img (prepareOptions options)).FieldIdName
        (NewCaptcha img (prepareOptions options)).URLPrefix id ∧
    (NewCaptcha img (prepareOptions options)).URLPrefix
      <+: imageURL (NewCaptcha img (prepareOptions options)).URLPrefix id ∧
    (NewCaptcha img (prepareOptions options)).URLPrefix
      <+: reloadURL (NewCaptcha img (prepareOptions options)).URLPrefix id ts ∧
    extractId (imageURL (NewCaptcha img (prepareOptions options)).URLPrefix id) = id ∧
    extractId (reloadURL (NewCaptcha img (prepareOptions options)).URLPrefix id ts) = id ∧
    (∀ (ctx : Context) (s : Store) (r : Rand),
      (ctx.Req.RequestURI = imageURL (NewCaptcha img (prepareOptions options)).URLPrefix id ∨
        ctx.Req.RequestURI
          = reloadURL (NewCaptcha img (prepareOptions options)).URLPrefix id ts) →
      ∃ ops, (Captchaer img options ctx s r).2.2.1.trace = s.trace ++ ops ∧
        ∀ op ∈ ops, op.key = key (NewCaptcha img (prepareOptions options)) id) ∧
    (∀ (s : Store) (r : Rand) (id1 : GoString),
      (CreateCaptcha (NewCaptcha img (prepareOptions options)) s r).1
          = Outcome.ret (id1, none) →
      id1 ≠ [] ∧ (∀ b ∈ id1, b ∈ alphanum) ∧
      ∃ d, (CreateCaptcha (NewCaptcha img (prepareOptions options)) s r).2.1.trace
        = s.trace ++ [StoreOp.put (key (NewCaptcha img (prepareOptions options)) id1)
            (Value.bytes d) (NewCaptcha img (prepareOptions options)).Expiration]) := by
  obtain ⟨p0, hp0⟩ := prepareOptions_URLPrefix_slash options
  have hpre : (NewCaptcha img (prepareOptions options)).URLPrefix = p0 ++ [47] := hp0
  have hslash : (47 : Byte) ∉ id := fun hm => (alphanum_safe 47 (halnum 47 hm)).1 rfl
  have hdot : (46 : Byte) ∉ id := fun hm => (alphanum_safe 46 (halnum 46 hm)).2 rfl
  have himg : imageURL (p0 ++ [47]) id = p0 ++ 47 :: (id ++ 46 :: lit "png") := by
    simp [imageURL, show lit ".png" = 46 :: lit "png" from rfl]
  have hrel : reloadURL (p0 ++ [47]) id ts
      = p0 ++ 47 :: (id ++ 46 :: (lit "png?reload=" ++ ts)) := by
    simp [reloadURL, show lit ".png?reload=" = 46 :: lit "png?reload=" from rfl]
  have hex1 : extractId (imageURL (p0 ++ [47]) id) = id := by
    rw [himg]
    exact extractId_dot p0 id _ hslash hdot (by decide)
  have hex2 : extractId (reloadURL (p0 ++ [47]) id ts) = id := by
    rw [hrel]
    apply extractId_dot p0 id _ hslash hdot
    simp only [List.mem_append, not_or]
    refine ⟨by decide, fun hm => ?_⟩
    have := (hts 47 hm).1
    exact absurd this (by decide)
  have hpi : (NewCaptcha img (prepareOptions options)).URLPrefix
      <+: imageURL (NewCaptcha img (prepareOptions options)).URLPrefix id :=
    ⟨id ++ lit ".png", by simp [imageURL]⟩
  have hpr : (NewCaptcha img (prepareOptions options)).URLPrefix
      <+: reloadURL (NewCaptcha img (prepareOptions options)).URLPrefix id ts :=
    ⟨id ++ lit ".png?reload=" ++ ts, by simp [reloadURL]⟩
  refine ⟨?_, ?_, hpi, hpr, by rw [hpre]; exact hex1, by rw [hpre]; exact hex2, ?_, ?_⟩
  · refine ⟨hiddenField (NewCaptcha img (prepareOptions options)).FieldIdName id ++ [10, 9]
      ++ (lit "<a class=" ++ dquote ++ lit "captcha" ++ dquote ++ lit " href=" ++ dquote
        ++ lit "javascript:" ++ dquote ++ lit ">") ++ [10, 9, 9]
      ++ (lit "<img onclick=" ++ dquote ++ lit "this.src=(" ++ squote
        ++ reloadURL (NewCaptcha img (prepareOptions options)).URLPrefix id [] ++ squote
        ++ lit "+(new Date()).getTime())"
        ++ dquote ++ lit " class=" ++ dquote ++ lit "captcha-img" ++ dquote ++ lit " "),
      lit ">" ++ [10, 9] ++ lit "</a>", ?_⟩
    simp only [markup, imgTag, List.append_assoc]
  · refine ⟨hiddenField (NewCaptcha img (prepareOptions options)).FieldIdName id ++ [10, 9]
      ++ (lit "<a class=" ++ dquote ++ lit "captcha" ++ dquote ++ lit " href=" ++ dquote
        ++ lit "javascript:" ++ dquote ++ lit ">") ++ [10, 9, 9]
      ++ (lit "<img onclick=" ++ dquote ++ lit "this.src=(" ++ squote),
      squote ++ lit "+(new Date()).getTime())" ++ dquote ++ lit " class=" ++ dquote
        ++ lit "captcha-img" ++ dquote ++ lit " "
        ++ srcAttr (imageURL (NewCaptcha img (prepareOptions options)).URLPrefix id)
        ++ lit ">" ++ [10, 9] ++ lit "</a>", ?_⟩
    simp only [markup, imgTag, List.append_assoc]
  · intro ctx s r huri
    have hp : HasPrefix ctx.Req.RequestURI (prepareOptions options).URLPrefix = true := by
      rw [HasPrefix_iff]
      rcases huri with h | h
      · obtain ⟨x, hx⟩ := hpi
        exact ⟨x, by rw [h]; exact hx.symm⟩
      · obtain ⟨x, hx⟩ := hpr
        exact ⟨x, by rw [h]; exact hx.symm⟩
    have hex : extractId ctx.Req.RequestURI = id := by
      rcases huri with h | h
      · rw [h, hpre]; exact hex1
      · rw [h, hpre]; exact hex2
    obtain ⟨ops, h1, h2, _⟩ := Captchaer_trace_key img options ctx s r hp
    rw [hex] at h2
    exact ⟨ops, h1, h2⟩
  · intro s r id1 hc
    obtain ⟨hnew, _, htrace⟩ := CreateCaptcha_ok _ s r id1 hc
    refine ⟨by rw [hnew]; exact newId_ne_nil r, ?_, _, htrace⟩
    intro b hb
    rw [hnew] at hb
    exact newId_alphanum r b hb

set_option maxRecDepth 8000 in
theorem markup_urls_resolve_witness :
    extractId (imageURL (NewCaptcha sampleImaging (prepareOptions [])).URLPrefix
      (lit "3AHOVcjqx4BIPWd")) = lit "3AHOVcjqx4BIPWd" ∧
    extractId (reloadURL (NewCaptcha sampleImaging (prepareOptions [])).URLPrefix
      (lit "3AHOVcjqx4BIPWd") (lit "1730000000000")) = lit "3AHOVcjqx4BIPWd" :=
  have h := markup_urls_resolve sampleImaging [] (lit "3AHOVcjqx4BIPWd")
    (lit "1730000000000") (by decide) (by decide)
  ⟨h.2.2.2.2.1, h.2.2.2.2.2.1⟩

end MacaronCaptcha
